import Mathlib

/-!
SPIFFE certificate validator: a shallow embedding of
`source/extensions/transport_sockets/tls/cert_validator/spiffe/spiffe_validator.cc`.

* `std::string` is a Lean `String`; positions count characters, which stand
  for the code units of the C++ string.
* `trust_bundle_stores_` (an `absl::flat_hash_map`) is a function from keys to
  optional stores: `find` is application, `operator[]` assignment is
  `Function.update`.
* A C++ exception (`EnvoyException`) is the `error` side of `Except`.
* The TLS library and the data-source loader are not part of the file; the
  functions the validator calls on them are the fields of `Externals`.
-/

namespace Envoy.Extensions.TransportSockets.Tls

/-! ## Constants of the TLS library headers -/

/-- Extension flag `EXFLAG_CA` of `openssl/x509v3.h`. -/
def EXFLAG_CA : Nat := 0x10

/-- Key usage bit `KU_KEY_CERT_SIGN` of `openssl/x509v3.h`. -/
def KU_KEY_CERT_SIGN : Nat := 0x0004

/-- Key usage bit `KU_CRL_SIGN` of `openssl/x509v3.h`. -/
def KU_CRL_SIGN : Nat := 0x0002

/-- General name tag `GEN_URI` of `openssl/x509v3.h`. -/
def GEN_URI : Nat := 6

/-- Store flag `X509_V_FLAG_CRL_CHECK` of `openssl/x509_vfy.h`. -/
def X509_V_FLAG_CRL_CHECK : Nat := 0x4

/-- Store flag `X509_V_FLAG_CRL_CHECK_ALL` of `openssl/x509_vfy.h`. -/
def X509_V_FLAG_CRL_CHECK_ALL : Nat := 0x8

/-- Verify mode `SSL_VERIFY_PEER` of `openssl/ssl.h`. -/
def SSL_VERIFY_PEER : Nat := 0x01

/-- Verify mode `SSL_VERIFY_FAIL_IF_NO_PEER_CERT` of `openssl/ssl.h`. -/
def SSL_VERIFY_FAIL_IF_NO_PEER_CERT : Nat := 0x02

/-! ## Data model -/

/-- One entry of a subject-alternative-name extension: its type tag and the
text `Utility::generalNameAsString` renders for it. -/
structure GENERAL_NAME where
  type : Nat
  value : String
deriving DecidableEq, Repr

/-- A decoded certificate, as far as the validator looks at it: `der` stands
for the encoded certificate (its identity), `ex_flags` is what
`X509_get_extension_flags` returns, `ex_kusage` what `X509_get_key_usage`
returns, and `subject_alt_name` what `X509_get_ext_d2i` returns for
`NID_subject_alt_name` (`none` is the null pointer). -/
structure X509 where
  der : String
  ex_flags : Nat
  ex_kusage : Nat
  subject_alt_name : Option (List GENERAL_NAME)
deriving DecidableEq, Repr

/-- A decoded certificate revocation list, known by its encoding. -/
structure X509_CRL where
  der : String
deriving DecidableEq, Repr

/-- One entry of a decoded PEM bundle: `x509` and `crl` are the two pointers
the constructor reads, `none` being null (an entry holding only a private key
has both null). -/
structure X509_INFO where
  x509 : Option X509
  crl : Option X509_CRL
deriving DecidableEq, Repr

/-- Verification parameters of a path-validation context. -/
structure X509_VERIFY_PARAM where
  flags : Nat
  purpose : Nat
  trust : Nat
  depth : Int
  check_time : Option Nat
deriving DecidableEq, Repr

/-- A certificate store: trust anchors, revocation lists and the parameters
that `X509_STORE_set_flags` writes to. -/
structure X509_STORE where
  certs : List X509
  crls : List X509_CRL
  param : X509_VERIFY_PARAM
deriving DecidableEq, Repr

/-- A path-validation context: the store, the target certificate, the
untrusted chain, the parameters and the chain built so far. -/
structure X509_STORE_CTX where
  store : X509_STORE
  cert : X509
  untrusted : List X509
  param : X509_VERIFY_PARAM
  chain : List X509
deriving DecidableEq, Repr

/-- The values of `Envoy::Ssl::ClientValidationStatus`. -/
inductive ClientValidationStatus where
  | NotValidated
  | NoClientCertificate
  | Validated
  | Failed
deriving DecidableEq, Repr

/-- The status sink `Ssl::SslExtendedSocketInfo`: it keeps the status last set. -/
structure SslExtendedSocketInfo where
  certificate_validation_status_ : ClientValidationStatus
deriving DecidableEq, Repr

/-- The counters of `SslStats` the validator touches. -/
structure SslStats where
  fail_verify_error_ : Nat
deriving DecidableEq, Repr

/-- A `DataSource` of the configuration: the file name (empty for an inline
bundle) and the inline bytes. -/
structure DataSource where
  filename : String
  inline_bytes : String
deriving DecidableEq, Repr

/-- One `trust_domains` entry of `SPIFFECertValidatorConfig`. -/
structure TrustDomain where
  name : String
  trust_bundle : DataSource
deriving DecidableEq, Repr

/-- The functions the validator calls outside its own file.
`read` is `Config::DataSource::read(source, true, api)`, which throws when the
source cannot be read; `PEM_X509_INFO_read_bio` decodes a bundle (`none` is
the null list); `X509_VERIFY_PARAM_inherit dest src` is the destination after
inheriting from `src`; `X509_verify_cert` is path validation, of which the
validator uses the return code only. -/
structure Externals where
  read : DataSource → Except String String
  PEM_X509_INFO_read_bio : String → Option (List X509_INFO)
  X509_VERIFY_PARAM_inherit : X509_VERIFY_PARAM → X509_VERIFY_PARAM → X509_VERIFY_PARAM
  X509_verify_cert : X509_STORE_CTX → Int

/-- The validator's members: the registry, the flattened anchor list and the
descriptor of the representative anchor. -/
structure SPIFFEValidator where
  trust_bundle_stores_ : String → Option X509_STORE
  ca_certs_ : List X509
  ca_file_name_ : String

/-! ## String helpers -/

/-- The test `absl::StartsWith(text, pre)`. -/
def StartsWith (text pre : String) : Bool :=
  pre.data.isPrefixOf text.data

/-- The search `std::string::find(ch, pos)`: the first position at or after
`pos` holding `ch`; `none` is `npos`. -/
def find (s : String) (ch : Char) (pos : Nat) : Option Nat :=
  if ch ∈ s.data.drop pos then some (pos + (s.data.drop pos).indexOf ch) else none

/-- The slice `std::string::substr(pos, n)` for `pos` within the string. -/
def substr (s : String) (pos n : Nat) : String :=
  ⟨(s.data.drop pos).take n⟩

/-- The rendering `Utility::generalNameAsString` of an entry. -/
def generalNameAsString (general_name : GENERAL_NAME) : String :=
  general_name.value

/-! ## Trust-domain extraction and leaf precheck -/

/-- The function-local constant `prefix` of `extractTrustDomain`. -/
def prefix_ : String := "spiffe://"

/-- Embedding of `SPIFFEValidator::extractTrustDomain`. -/
def extractTrustDomain (san : String) : String :=
  if !StartsWith san prefix_ then
    ""
  else
    match find san '/' prefix_.length with
    | some pos => substr san prefix_.length (pos - prefix_.length)
    | none => ""

/-- Embedding of `SPIFFEValidator::certificatePrecheck`. -/
def certificatePrecheck (leaf_cert : X509) : Bool :=
  let ext := leaf_cert.ex_flags
  if ext &&& EXFLAG_CA ≠ 0 then
    false
  else
    let us := leaf_cert.ex_kusage
    (us &&& (KU_CRL_SIGN ||| KU_KEY_CERT_SIGN)) == 0

/-! ## Library calls with a fixed meaning -/

/-- The test `std::string::empty`. -/
def empty (s : String) : Bool :=
  s.data.isEmpty

/-- A freshly allocated parameter set (`X509_VERIFY_PARAM_new`): nothing set. -/
def X509_VERIFY_PARAM_new : X509_VERIFY_PARAM :=
  { flags := 0, purpose := 0, trust := 0, depth := -1, check_time := none }

/-- A freshly allocated store (`X509_STORE_new`): no anchors, no CRLs. -/
def X509_STORE_new : X509_STORE :=
  { certs := [], crls := [], param := X509_VERIFY_PARAM_new }

/-- The call `X509_STORE_add_cert`: the store keeps one copy of a certificate. -/
def X509_STORE_add_cert (store : X509_STORE) (x : X509) : X509_STORE :=
  if x ∈ store.certs then store else { store with certs := store.certs ++ [x] }

/-- The call `X509_STORE_add_crl`: the store keeps one copy of a CRL. -/
def X509_STORE_add_crl (store : X509_STORE) (crl : X509_CRL) : X509_STORE :=
  if crl ∈ store.crls then store else { store with crls := store.crls ++ [crl] }

/-- The call `X509_STORE_set_flags`: the flags are or-ed into the store's
parameters. -/
def X509_STORE_set_flags (store : X509_STORE) (flags : Nat) : X509_STORE :=
  { store with param := { store.param with flags := store.param.flags ||| flags } }

/-- The calls `X509_STORE_CTX_new` and `X509_STORE_CTX_init`: a context over
`store` for target `x509` with untrusted chain `chain`; its parameters start
from those of the store and no chain is built yet. -/
def X509_STORE_CTX_init (env : Externals) (store : X509_STORE) (x509 : X509)
    (chain : List X509) : X509_STORE_CTX :=
  { store := store, cert := x509, untrusted := chain,
    param := env.X509_VERIFY_PARAM_inherit X509_VERIFY_PARAM_new store.param,
    chain := [] }

/-- The accessor `X509_STORE_CTX_get0_chain`. -/
def X509_STORE_CTX_get0_chain (ctx : X509_STORE_CTX) : List X509 :=
  ctx.chain

/-- The accessor `X509_STORE_CTX_get0_param`. -/
def X509_STORE_CTX_get0_param (ctx : X509_STORE_CTX) : X509_VERIFY_PARAM :=
  ctx.param

/-- The call `X509_STORE_CTX_set0_param`: the context's parameters are
replaced. -/
def X509_STORE_CTX_set0_param (ctx : X509_STORE_CTX) (param : X509_VERIFY_PARAM) :
    X509_STORE_CTX :=
  { ctx with param := param }

/-! ## Registry construction -/

/-- The locals and members the loop over one bundle's entries updates. -/
structure BundleLoad where
  store : X509_STORE
  has_crl : Bool
  ca_loaded : Bool
  ca_certs_ : List X509
  ca_file_name_ : String
deriving DecidableEq, Repr

/-- The body of the loop over the entries of one decoded bundle
(`for (const X509_INFO* item : list.get())`). -/
def loadItem (domain : TrustDomain) (b : BundleLoad) (item : X509_INFO) : BundleLoad :=
  let b :=
    match item.x509 with
    | some x509 =>
      let b := { b with store := X509_STORE_add_cert b.store x509,
                        ca_certs_ := b.ca_certs_ ++ [x509] }
      if !b.ca_loaded then
        { b with ca_loaded := true,
                 ca_file_name_ := domain.name ++ ": " ++
                   (if empty domain.trust_bundle.filename then "<inline>"
                    else domain.trust_bundle.filename) }
      else b
    | none => b
  match item.crl with
  | some crl => { b with has_crl := true, store := X509_STORE_add_crl b.store crl }
  | none => b

/-- The body of the loop over the configured trust domains: one domain is
checked, decoded and registered, or an `EnvoyException` is thrown. -/
def loadTrustDomain (env : Externals) (v : SPIFFEValidator) (domain : TrustDomain) :
    Except String SPIFFEValidator :=
  if (v.trust_bundle_stores_ domain.name).isSome then
    .error ("Multiple trust bundles are given for one trust domain for " ++ domain.name)
  else
    match env.read domain.trust_bundle with
    | .error e => .error e
    | .ok cert =>
      match env.PEM_X509_INFO_read_bio cert with
      | none => .error ("Failed to load trusted CA certificate for " ++ domain.name)
      | some list =>
        if list.length = 0 then
          .error ("Failed to load trusted CA certificate for " ++ domain.name)
        else
          let b := list.foldl (loadItem domain)
            { store := X509_STORE_new, has_crl := false, ca_loaded := false,
              ca_certs_ := v.ca_certs_, ca_file_name_ := v.ca_file_name_ }
          let store :=
            if b.has_crl then
              X509_STORE_set_flags b.store (X509_V_FLAG_CRL_CHECK ||| X509_V_FLAG_CRL_CHECK_ALL)
            else b.store
          .ok { trust_bundle_stores_ := Function.update v.trust_bundle_stores_ domain.name (some store),
                ca_certs_ := b.ca_certs_,
                ca_file_name_ := b.ca_file_name_ }

/-- The loop `for (auto& domain : message.trust_domains())`, stopping at the
first exception. -/
def loadTrustDomains (env : Externals) :
    List TrustDomain → SPIFFEValidator → Except String SPIFFEValidator
  | [], v => .ok v
  | domain :: rest, v =>
    match loadTrustDomain env v domain with
    | .error e => .error e
    | .ok v1 => loadTrustDomains env rest v1

/-- Embedding of the constructor `SPIFFEValidator::SPIFFEValidator` on the
`trust_domains` of the decoded configuration message: the validator, or the
exception thrown. -/
def SPIFFEValidator.create (env : Externals) (trust_domains : List TrustDomain) :
    Except String SPIFFEValidator :=
  loadTrustDomains env trust_domains
    { trust_bundle_stores_ := fun _ => none, ca_certs_ := [], ca_file_name_ := "" }

/-! ## Chain verification -/

/-- A call the verifier makes on a collaborator. -/
inductive Call where
  | setCertificateValidationStatus (status : ClientValidationStatus)
  | X509_verify_cert (ctx : X509_STORE_CTX)
deriving DecidableEq, Repr

/-- What a call of `doVerifyCertChain` can change: the counters, the status
sink (`none` is a null `ssl_extended_info`), and the record of the calls made
on the sink and on path validation, oldest first. -/
structure VerifyState where
  stats_ : SslStats
  ssl_extended_info : Option SslExtendedSocketInfo
  calls : List Call
deriving DecidableEq, Repr

/-- The statement `ssl_extended_info->setCertificateValidationStatus(status)`. -/
def VerifyState.setCertificateValidationStatus (s : VerifyState)
    (status : ClientValidationStatus) : VerifyState :=
  { s with ssl_extended_info := some { certificate_validation_status_ := status },
           calls := s.calls ++ [Call.setCertificateValidationStatus status] }

/-- The statement `stats_.fail_verify_error_.inc()`. -/
def VerifyState.inc_fail_verify_error_ (s : VerifyState) : VerifyState :=
  { s with stats_ := { s.stats_ with fail_verify_error_ := s.stats_.fail_verify_error_ + 1 } }

/-- The loop of `getTrustBundleStore` over the SAN entries: the trust domain
of the first entry of type URI, the empty string when there is none. -/
def firstUriTrustDomain : List GENERAL_NAME → String
  | [] => ""
  | general_name :: rest =>
    if general_name.type ≠ GEN_URI then
      firstUriTrustDomain rest
    else
      let san := generalNameAsString general_name
      extractTrustDomain san

/-- Embedding of `SPIFFEValidator::getTrustBundleStore`; `none` is the null
pointer. -/
def getTrustBundleStore (v : SPIFFEValidator) (leaf_cert : X509) : Option X509_STORE :=
  match leaf_cert.subject_alt_name with
  | none => none
  | some san_names =>
    let trust_domain := firstUriTrustDomain san_names
    if empty trust_domain then
      none
    else
      v.trust_bundle_stores_ trust_domain

/-- Embedding of `SPIFFEValidator::doVerifyCertChain`: the return code and
the state after the call. -/
def doVerifyCertChain (env : Externals) (v : SPIFFEValidator) (store_ctx : X509_STORE_CTX)
    (leaf_cert : X509) (s : VerifyState) : Int × VerifyState :=
  if !certificatePrecheck leaf_cert then
    let s := if s.ssl_extended_info.isSome then
      s.setCertificateValidationStatus ClientValidationStatus.Failed else s
    let s := s.inc_fail_verify_error_
    (0, s)
  else
    match getTrustBundleStore v leaf_cert with
    | none =>
      let s := if s.ssl_extended_info.isSome then
        s.setCertificateValidationStatus ClientValidationStatus.Failed else s
      let s := s.inc_fail_verify_error_
      (0, s)
    | some trust_bundle =>
      let verify_ctx := X509_STORE_CTX_init env trust_bundle leaf_cert
        (X509_STORE_CTX_get0_chain store_ctx)
      let verify_params := X509_VERIFY_PARAM_new
      let verify_params :=
        env.X509_VERIFY_PARAM_inherit verify_params (X509_STORE_CTX_get0_param store_ctx)
      let verify_ctx := X509_STORE_CTX_set0_param verify_ctx verify_params
      let ret := env.X509_verify_cert verify_ctx
      let s := { s with calls := s.calls ++ [Call.X509_verify_cert verify_ctx] }
      let s := if s.ssl_extended_info.isSome then
        s.setCertificateValidationStatus
          (if ret = 1 then ClientValidationStatus.Validated else ClientValidationStatus.Failed)
        else s
      let s := if ret = 0 then s.inc_fail_verify_error_ else s
      (ret, s)

/-! ## Diagnostics -/

/-- The constant `SIZE_MAX` of a 64-bit platform. -/
def SIZE_MAX : Nat := 2 ^ 64 - 1

/-- The conversion of a signed integer to `size_t`, as in the initialisation
`size_t tmp = Utility::getDaysUntilExpiration(...)`. -/
def to_size_t (i : Int) : Nat :=
  (i % 2 ^ 64).toNat

/-- Embedding of `SPIFFEValidator::daysUntilFirstCertExpires`; the helper
`Utility::getDaysUntilExpiration` at the validator's time source, which the
file does not define, is the first argument. -/
def daysUntilFirstCertExpires (getDaysUntilExpiration : X509 → Int) (v : SPIFFEValidator) :
    Nat :=
  if v.ca_certs_.isEmpty then
    0
  else
    v.ca_certs_.foldl
      (fun ret cert =>
        let tmp := to_size_t (getDaysUntilExpiration cert)
        if tmp < ret then tmp else ret)
      SIZE_MAX

/-- Modelled from the spec: the accessor `getCaFileName` is defined in the
class declaration, which is not among the source files; it hands out the
source descriptor `ca_file_name_`. -/
def getCaFileName (v : SPIFFEValidator) : String :=
  v.ca_file_name_

/-- Embedding of `SPIFFEValidator::getCaCertInformation`; the helper
`Utility::certificateDetails` at the validator's time source is the first
argument and `none` is the null pointer. -/
def getCaCertInformation {α : Type} (certificateDetails : X509 → String → α)
    (v : SPIFFEValidator) : Option α :=
  match v.ca_certs_ with
  | [] => none
  | first :: _ => some (certificateDetails first (getCaFileName v))

/-! ## Vocabulary of the statements -/

/-- The entries a domain's bundle decodes to: the empty list when the source
cannot be read or the bundle is undecodable. -/
def decodedBundle (env : Externals) (domain : TrustDomain) : List X509_INFO :=
  match env.read domain.trust_bundle with
  | .error _ => []
  | .ok bytes => (env.PEM_X509_INFO_read_bio bytes).getD []

/-- The certificates of a decoded bundle, in bundle order. -/
def bundleCerts (items : List X509_INFO) : List X509 :=
  items.filterMap (fun item => item.x509)

/-- The CRLs of a decoded bundle, in bundle order. -/
def bundleCrls (items : List X509_INFO) : List X509_CRL :=
  items.filterMap (fun item => item.crl)

/-- The statuses written to the sink by a sequence of calls, in order. -/
def statusesWritten (calls : List Call) : List ClientValidationStatus :=
  calls.filterMap (fun c =>
    match c with
    | Call.setCertificateValidationStatus status => some status
    | Call.X509_verify_cert _ => none)

/-! ## Example data -/

/-- A CA certificate, the anchor of the trust domain `a.org`. -/
def anchorA : X509 :=
  { der := "anchor of a.org", ex_flags := 0x13, ex_kusage := 0x06, subject_alt_name := none }

/-- A CA certificate, the anchor of the trust domain `b.org`. -/
def anchorB : X509 :=
  { der := "anchor of b.org", ex_flags := 0x13, ex_kusage := 0x06, subject_alt_name := none }

/-- A leaf whose SAN holds a DNS entry and then the URI of a workload of `a.org`. -/
def leafA : X509 :=
  { der := "leaf of a.org", ex_flags := 0x02, ex_kusage := 0x80,
    subject_alt_name := some [⟨2, "a.org"⟩, ⟨GEN_URI, "spiffe://a.org/workload"⟩] }

/-- A leaf whose URI names the trust domain `c.org`. -/
def leafC : X509 :=
  { der := "leaf of c.org", ex_flags := 0x02, ex_kusage := 0x80,
    subject_alt_name := some [⟨GEN_URI, "spiffe://c.org/workload"⟩] }

/-- A leaf whose SAN holds a DNS entry only. -/
def leafDnsOnly : X509 :=
  { der := "leaf with a DNS name", ex_flags := 0x02, ex_kusage := 0x80,
    subject_alt_name := some [⟨2, "a.org"⟩] }

/-- A leaf whose only URI is not a SPIFFE identifier. -/
def leafWebUri : X509 :=
  { der := "leaf with a web URI", ex_flags := 0x02, ex_kusage := 0x80,
    subject_alt_name := some [⟨GEN_URI, "https://a.org/workload"⟩] }

/-- A certificate with the CA flag carrying the URI of a workload of `a.org`. -/
def leafWithCaFlag : X509 :=
  { der := "CA posing as leaf", ex_flags := 0x13, ex_kusage := 0x80,
    subject_alt_name := some [⟨GEN_URI, "spiffe://a.org/workload"⟩] }

/-- Collaborators for the examples: every source is read as its inline bytes,
the bundles `PEM a` and `PEM b` decode to one anchor each, the empty bundle to
no entry and anything else is undecodable; inheriting copies the source
parameters; path validation accepts every context. -/
def exampleEnv : Externals :=
  { read := fun source => .ok source.inline_bytes,
    PEM_X509_INFO_read_bio := fun bytes =>
      if bytes = "PEM a" then some [⟨some anchorA, none⟩]
      else if bytes = "PEM b" then some [⟨some anchorB, none⟩]
      else if bytes = "" then some []
      else none,
    X509_VERIFY_PARAM_inherit := fun _ src => src,
    X509_verify_cert := fun _ => 1 }

/-- The store holding `anchorA` only. -/
def storeA : X509_STORE :=
  { certs := [anchorA], crls := [], param := X509_VERIFY_PARAM_new }

/-- The store holding `anchorB` only. -/
def storeB : X509_STORE :=
  { certs := [anchorB], crls := [], param := X509_VERIFY_PARAM_new }

/-- A validator with the trust domains `a.org` and `b.org`. -/
def twoDomainValidator : SPIFFEValidator :=
  { trust_bundle_stores_ :=
      Function.update (Function.update (fun _ => none) "a.org" (some storeA)) "b.org" (some storeB),
    ca_certs_ := [anchorA, anchorB],
    ca_file_name_ := "b.org: <inline>" }

/-- The validator the constructor builds from one trust domain whose label is
the empty string. -/
def emptyLabelValidator : SPIFFEValidator :=
  { trust_bundle_stores_ := Function.update (fun _ => none) "" (some storeA),
    ca_certs_ := [anchorA],
    ca_file_name_ := ": <inline>" }

/-- A caller context: its chain is the leaf `leafA`. -/
def callerCtx : X509_STORE_CTX :=
  { store := X509_STORE_new, cert := leafA, untrusted := [],
    param := { flags := 0, purpose := 1, trust := 0, depth := 100, check_time := none },
    chain := [leafA] }

/-- A state before a call: counter at zero, a sink that holds no verdict yet,
no call made. -/
def initialState : VerifyState :=
  { stats_ := { fail_verify_error_ := 0 },
    ssl_extended_info := some { certificate_validation_status_ := ClientValidationStatus.NotValidated },
    calls := [] }

/-- A leaf whose SAN holds a DNS entry, then the URI of a workload of `c.org`,
then the URI of a workload of `a.org`. -/
def leafTwoUris : X509 :=
  { der := "leaf with two URIs", ex_flags := 0x02, ex_kusage := 0x80,
    subject_alt_name := some [⟨2, "a.org"⟩, ⟨GEN_URI, "spiffe://c.org/workload"⟩,
      ⟨GEN_URI, "spiffe://a.org/workload"⟩] }

/-- Days until expiration for the examples: 10 for `anchorA`, 30 for any
other certificate. -/
def exampleDays : X509 → Int :=
  fun cert => if cert = anchorA then 10 else 30

/-- The validator `twoDomainValidator` with its anchors listed in the other
order. -/
def twoDomainValidatorSwapped : SPIFFEValidator :=
  { twoDomainValidator with ca_certs_ := [anchorB, anchorA] }

/-- The collaborators of `exampleEnv` with a path validation that rejects
every context with the code 0. -/
def rejectingEnv : Externals :=
  { exampleEnv with X509_verify_cert := fun _ => 0 }

/-- The collaborators of `exampleEnv` with a path validation that ends with
the error code -1 on every context. -/
def erroringEnv : Externals :=
  { exampleEnv with X509_verify_cert := fun _ => -1 }

/-- A revocation list issued for the trust domain `a.org`. -/
def crlA : X509_CRL :=
  { der := "CRL of a.org" }

/-- The collaborators of `exampleEnv` with two more bundles: `PEM a with CRL`
decodes to the anchor of `a.org` followed by a CRL, `PEM CRL only` to a CRL
and nothing else. -/
def crlEnv : Externals :=
  { exampleEnv with
    PEM_X509_INFO_read_bio := fun bytes =>
      if bytes = "PEM a with CRL" then some [⟨some anchorA, none⟩, ⟨none, some crlA⟩]
      else if bytes = "PEM CRL only" then some [⟨none, some crlA⟩]
      else exampleEnv.PEM_X509_INFO_read_bio bytes }

/-- The store built from the bundle `PEM a with CRL`. -/
def storeAWithCrl : X509_STORE :=
  { certs := [anchorA], crls := [crlA],
    param := { flags := 12, purpose := 0, trust := 0, depth := -1, check_time := none } }

/-- The store built from the bundle `PEM CRL only`. -/
def storeCrlOnly : X509_STORE :=
  { certs := [], crls := [crlA],
    param := { flags := 12, purpose := 0, trust := 0, depth := -1, check_time := none } }

/-- The configuration of `a.org` with the bundle `PEM a with CRL` and `b.org`
with the bundle `PEM b`. -/
def crlConfig : List TrustDomain :=
  [⟨"a.org", ⟨"a.pem", "PEM a with CRL"⟩⟩, ⟨"b.org", ⟨"", "PEM b"⟩⟩]

/-- The validator the constructor builds from `crlConfig`. -/
def crlValidator : SPIFFEValidator :=
  { trust_bundle_stores_ :=
      Function.update (Function.update (fun _ => none) "a.org" (some storeAWithCrl))
        "b.org" (some storeB),
    ca_certs_ := [anchorA, anchorB],
    ca_file_name_ := "b.org: <inline>" }

/-- The validator the constructor builds from the one domain `a.org` with the
bundle `PEM CRL only`. -/
def crlOnlyValidator : SPIFFEValidator :=
  { trust_bundle_stores_ := Function.update (fun _ => none) "a.org" (some storeCrlOnly),
    ca_certs_ := [],
    ca_file_name_ := "" }

/-- The collaborators of `exampleEnv` with one more bundle: `PEM key only`
decodes to a single entry that holds a private key, so neither a certificate
nor a CRL. -/
def keyOnlyEnv : Externals :=
  { exampleEnv with
    PEM_X509_INFO_read_bio := fun bytes =>
      if bytes = "PEM key only" then some [⟨none, none⟩]
      else exampleEnv.PEM_X509_INFO_read_bio bytes }

/-- The validator the constructor builds from the one domain `k.org` with the
bundle `PEM key only`. -/
def keyOnlyValidator : SPIFFEValidator :=
  { trust_bundle_stores_ := Function.update (fun _ => none) "k.org" (some X509_STORE_new),
    ca_certs_ := [],
    ca_file_name_ := "" }

/-- The validator the constructor builds from `a.org` with the bundle `PEM a`
followed by `k.org` with the bundle `PEM key only`. -/
def anchorThenKeyOnlyValidator : SPIFFEValidator :=
  { trust_bundle_stores_ :=
      Function.update (Function.update (fun _ => none) "a.org" (some storeA))
        "k.org" (some X509_STORE_new),
    ca_certs_ := [anchorA],
    ca_file_name_ := "a.org: <inline>" }

/-- Days until expiration with an expired anchor: -5 for `anchorA`, which
expired five days ago, and 30 for any other certificate. -/
def expiredDays : X509 → Int :=
  fun cert => if cert = anchorA then -5 else 30

/-! ## Helper lemmas -/

theorem data_spiffe_append (t : String) :
    ("spiffe://" ++ t).data = prefix_.data ++ t.data := by
  simp [prefix_, String.data_append]

theorem startsWith_iff (san : String) :
    StartsWith san prefix_ = true ↔ ∃ rest : String, san = "spiffe://" ++ rest := by
  unfold StartsWith
  rw [List.isPrefixOf_iff_prefix]
  constructor
  · rintro ⟨t, ht⟩
    refine ⟨⟨t⟩, ?_⟩
    apply String.ext
    rw [data_spiffe_append, ← ht]
  · rintro ⟨rest, rfl⟩
    exact ⟨rest.data, (data_spiffe_append rest).symm⟩

theorem prefix_length : prefix_.length = 9 := by decide

theorem prefix_data_length : prefix_.data.length = 9 := by decide

theorem drop_spiffe_append (t : String) :
    ("spiffe://" ++ t).data.drop 9 = t.data := by
  rw [data_spiffe_append, ← prefix_data_length, List.drop_left]

theorem and_mask_eq_zero_iff (us : Nat) :
    us &&& (KU_CRL_SIGN ||| KU_KEY_CERT_SIGN) = 0 ↔
      us &&& KU_CRL_SIGN = 0 ∧ us &&& KU_KEY_CERT_SIGN = 0 := by
  rw [Nat.and_or_distrib_left]
  constructor
  · intro h
    constructor
    · apply Nat.eq_of_testBit_eq
      intro i
      have := congrArg (fun n => Nat.testBit n i) h
      simp only [Nat.testBit_or, Nat.zero_testBit, Bool.or_eq_false_iff] at this
      simpa using this.1
    · apply Nat.eq_of_testBit_eq
      intro i
      have := congrArg (fun n => Nat.testBit n i) h
      simp only [Nat.testBit_or, Nat.zero_testBit, Bool.or_eq_false_iff] at this
      simpa using this.2
  · rintro ⟨h1, h2⟩
    rw [h1, h2]
    rfl

theorem and_two_pow_eq_zero_iff (x k : Nat) : x &&& 2 ^ k = 0 ↔ x.testBit k = false := by
  constructor
  · intro h
    have := congrArg (fun n => Nat.testBit n k) h
    simpa [Nat.testBit_and, Nat.testBit_two_pow_self] using this
  · intro h
    apply Nat.eq_of_testBit_eq
    intro i
    by_cases hki : k = i
    · subst hki
      simp [Nat.testBit_and, h]
    · simp [Nat.testBit_and, Nat.testBit_two_pow_of_ne hki]

theorem firstUriTrustDomain_eq (names : List GENERAL_NAME) :
    firstUriTrustDomain names =
      match names.find? (fun n => decide (n.type = GEN_URI)) with
      | some g => extractTrustDomain (generalNameAsString g)
      | none => "" := by
  induction names with
  | nil => rfl
  | cons n rest ih =>
    by_cases hn : n.type = GEN_URI
    · simp [firstUriTrustDomain, List.find?, hn]
    · simp [firstUriTrustDomain, List.find?, hn, ih]

theorem firstUriTrustDomain_no_uri (names : List GENERAL_NAME)
    (h : ∀ n ∈ names, n.type ≠ GEN_URI) : firstUriTrustDomain names = "" := by
  induction names with
  | nil => rfl
  | cons n rest ih =>
    have hn : n.type ≠ GEN_URI := h n (List.mem_cons_self _ _)
    have hrest : ∀ m ∈ rest, m.type ≠ GEN_URI := fun m hm => h m (List.mem_cons_of_mem _ hm)
    simp [firstUriTrustDomain, hn, ih hrest]

theorem empty_iff (t : String) : empty t = true ↔ t = "" := by
  unfold empty
  constructor
  · intro h
    apply String.ext
    simpa [List.isEmpty_iff] using h
  · rintro rfl
    rfl

theorem doVerifyCertChain_of_reject (env : Externals) (v : SPIFFEValidator)
    (store_ctx : X509_STORE_CTX) (leaf : X509) (s : VerifyState)
    (h : certificatePrecheck leaf = false) :
    doVerifyCertChain env v store_ctx leaf s =
      (0, (if s.ssl_extended_info.isSome then
            s.setCertificateValidationStatus ClientValidationStatus.Failed
          else s).inc_fail_verify_error_) := by
  simp [doVerifyCertChain, h]

theorem doVerifyCertChain_of_no_store (env : Externals) (v : SPIFFEValidator)
    (store_ctx : X509_STORE_CTX) (leaf : X509) (s : VerifyState)
    (hpre : certificatePrecheck leaf = true) (hstore : getTrustBundleStore v leaf = none) :
    doVerifyCertChain env v store_ctx leaf s =
      (0, (if s.ssl_extended_info.isSome then
            s.setCertificateValidationStatus ClientValidationStatus.Failed
          else s).inc_fail_verify_error_) := by
  simp [doVerifyCertChain, hpre, hstore]

theorem failed_calls (s : VerifyState) :
    ∃ added, ((if s.ssl_extended_info.isSome then
            s.setCertificateValidationStatus ClientValidationStatus.Failed
          else s).inc_fail_verify_error_).calls = s.calls ++ added ∧
      ∀ ctx, Call.X509_verify_cert ctx ∉ added := by
  cases hs : s.ssl_extended_info with
  | none => exact ⟨[], by simp [VerifyState.inc_fail_verify_error_], by simp⟩
  | some info =>
    exact ⟨[Call.setCertificateValidationStatus ClientValidationStatus.Failed],
      by simp [VerifyState.inc_fail_verify_error_, VerifyState.setCertificateValidationStatus],
      by simp⟩

theorem getTrustBundleStore_of_first_uri (v : SPIFFEValidator) (leaf : X509)
    (names : List GENERAL_NAME) (g : GENERAL_NAME)
    (hsan : leaf.subject_alt_name = some names)
    (hfirst : names.find? (fun n => decide (n.type = GEN_URI)) = some g) :
    getTrustBundleStore v leaf =
      if extractTrustDomain (generalNameAsString g) = "" then none
      else v.trust_bundle_stores_ (extractTrustDomain (generalNameAsString g)) := by
  unfold getTrustBundleStore
  simp only [hsan, firstUriTrustDomain_eq, hfirst]
  by_cases he : extractTrustDomain (generalNameAsString g) = ""
  · simp [he, (empty_iff "").mpr rfl]
  · have : empty (extractTrustDomain (generalNameAsString g)) = false := by
      cases hb : empty (extractTrustDomain (generalNameAsString g))
      · rfl
      · exact absurd ((empty_iff _).mp hb) he
    simp [he, this]

theorem getTrustBundleStore_of_no_uri (v : SPIFFEValidator) (leaf : X509)
    (h : leaf.subject_alt_name = none ∨
      ∃ names, leaf.subject_alt_name = some names ∧ ∀ n ∈ names, n.type ≠ GEN_URI) :
    getTrustBundleStore v leaf = none := by
  unfold getTrustBundleStore
  rcases h with h | ⟨names, hn, hall⟩
  · simp [h]
  · simp only [hn, firstUriTrustDomain_no_uri names hall]
    rfl

theorem loadTrustDomain_dup (env : Externals) (v : SPIFFEValidator) (d : TrustDomain)
    (h : (v.trust_bundle_stores_ d.name).isSome = true) :
    loadTrustDomain env v d =
      .error ("Multiple trust bundles are given for one trust domain for " ++ d.name) := by
  simp [loadTrustDomain, h]

theorem loadTrustDomain_keys (env : Externals) (v v1 : SPIFFEValidator) (d : TrustDomain)
    (h : loadTrustDomain env v d = .ok v1) :
    (v1.trust_bundle_stores_ d.name).isSome = true ∧
      ∀ k, (v.trust_bundle_stores_ k).isSome = true →
        (v1.trust_bundle_stores_ k).isSome = true := by
  unfold loadTrustDomain at h
  split at h
  · cases h
  · split at h
    · cases h
    · split at h
      · cases h
      · split at h
        · cases h
        · injection h with h
          subst h
          constructor
          · simp
          · intro k hk
            by_cases hkd : k = d.name
            · subst hkd
              simp
            · simpa [Function.update_noteq hkd] using hk

theorem loadTrustDomains_append (env : Externals) (xs ys : List TrustDomain)
    (v : SPIFFEValidator) :
    loadTrustDomains env (xs ++ ys) v =
      match loadTrustDomains env xs v with
      | .error e => .error e
      | .ok v1 => loadTrustDomains env ys v1 := by
  induction xs generalizing v with
  | nil => rfl
  | cons x xs ih =>
    simp only [List.cons_append, loadTrustDomains]
    cases loadTrustDomain env v x with
    | error e => rfl
    | ok v1 => exact ih v1

theorem loadTrustDomains_dup (env : Externals) (mid post : List TrustDomain) (b : TrustDomain)
    (v : SPIFFEValidator) (h : (v.trust_bundle_stores_ b.name).isSome = true) :
    ∃ e, loadTrustDomains env (mid ++ b :: post) v = .error e := by
  induction mid generalizing v with
  | nil =>
    exact ⟨"Multiple trust bundles are given for one trust domain for " ++ b.name, by
      simp only [List.nil_append, loadTrustDomains, loadTrustDomain_dup env v b h]⟩
  | cons m mid ih =>
    simp only [List.cons_append, loadTrustDomains]
    cases hm : loadTrustDomain env v m with
    | error e => exact ⟨e, rfl⟩
    | ok v1 => exact ih v1 ((loadTrustDomain_keys env v v1 m hm).2 _ h)

theorem loadTrustDomains_cons_dup (env : Externals) (mid post : List TrustDomain)
    (a b : TrustDomain) (v : SPIFFEValidator) (hab : a.name = b.name) :
    ∃ e, loadTrustDomains env (a :: (mid ++ b :: post)) v = .error e := by
  simp only [loadTrustDomains]
  cases ha : loadTrustDomain env v a with
  | error e => exact ⟨e, rfl⟩
  | ok v1 =>
    have h1 := (loadTrustDomain_keys env v v1 a ha).1
    rw [hab] at h1
    exact loadTrustDomains_dup env mid post b v1 h1

theorem loadTrustDomain_undecodable (env : Externals) (v : SPIFFEValidator) (d : TrustDomain)
    (h : ∀ bytes, env.read d.trust_bundle = .ok bytes →
      env.PEM_X509_INFO_read_bio bytes = none ∨ env.PEM_X509_INFO_read_bio bytes = some []) :
    ∃ e, loadTrustDomain env v d = .error e := by
  unfold loadTrustDomain
  split
  · exact ⟨_, rfl⟩
  · cases hr : env.read d.trust_bundle with
    | error e => exact ⟨e, rfl⟩
    | ok bytes =>
      rcases h bytes hr with hd | hd
      · exact ⟨"Failed to load trusted CA certificate for " ++ d.name, by simp [hd]⟩
      · exact ⟨"Failed to load trusted CA certificate for " ++ d.name, by simp [hd]⟩

theorem loadTrustDomains_error_at (env : Externals) (pre post : List TrustDomain)
    (d : TrustDomain) (v : SPIFFEValidator)
    (h : ∀ w : SPIFFEValidator, ∃ e, loadTrustDomain env w d = .error e) :
    ∃ e, loadTrustDomains env (pre ++ d :: post) v = .error e := by
  rw [loadTrustDomains_append]
  cases loadTrustDomains env pre v with
  | error e => exact ⟨e, rfl⟩
  | ok v1 =>
    obtain ⟨e, he⟩ := h v1
    exact ⟨e, by simp [loadTrustDomains, he]⟩

theorem not_mem_take_indexOf (c : Char) (l : List Char) : c ∉ l.take (l.indexOf c) := by
  induction l with
  | nil => simp
  | cons a l ih =>
    by_cases hac : a = c
    · subst hac
      simp [List.indexOf_cons_self]
    · rw [List.indexOf_cons_ne l hac]
      simp only [List.take_succ_cons, List.mem_cons, not_or]
      exact ⟨fun h => hac h.symm, ih⟩

theorem split_at_indexOf (c : Char) (l : List Char) (h : c ∈ l) :
    l = l.take (l.indexOf c) ++ c :: l.drop (l.indexOf c + 1) := by
  induction l with
  | nil => simp at h
  | cons a l ih =>
    by_cases hac : a = c
    · subst hac
      simp [List.indexOf_cons_self]
    · have hl : c ∈ l := by
        rcases List.mem_cons.mp h with h1 | h1
        · exact absurd h1.symm hac
        · exact h1
      rw [List.indexOf_cons_ne l hac]
      simp only [List.take_succ_cons, List.drop_succ_cons, List.cons_append]
      exact congrArg (List.cons a) (ih hl)

theorem extractTrustDomain_spiffe (r : String) :
    extractTrustDomain ("spiffe://" ++ r) =
      if '/' ∈ r.data then ⟨r.data.take (r.data.indexOf '/')⟩ else "" := by
  have hsw : StartsWith ("spiffe://" ++ r) prefix_ = true := (startsWith_iff _).mpr ⟨r, rfl⟩
  unfold extractTrustDomain
  by_cases hmem : '/' ∈ r.data
  · simp only [hsw, Bool.not_true, Bool.false_eq_true, if_false, find, prefix_length,
      drop_spiffe_append, hmem, if_true, substr, Nat.add_sub_cancel_left]
  · simp only [hsw, Bool.not_true, Bool.false_eq_true, if_false, find, prefix_length,
      drop_spiffe_append, hmem]

theorem extractTrustDomain_cases (san : String) :
    extractTrustDomain san = "" ∨
      ∃ r : String, san = "spiffe://" ++ r ∧ '/' ∈ r.data ∧
        extractTrustDomain san = ⟨r.data.take (r.data.indexOf '/')⟩ := by
  cases hsw : StartsWith san prefix_ with
  | false =>
    left
    simp [extractTrustDomain, hsw]
  | true =>
    obtain ⟨r, hr⟩ := (startsWith_iff san).mp hsw
    subst hr
    by_cases hmem : '/' ∈ r.data
    · right
      exact ⟨r, rfl, hmem, by rw [extractTrustDomain_spiffe, if_pos hmem]⟩
    · left
      rw [extractTrustDomain_spiffe, if_neg hmem]

theorem extractTrustDomain_slash_free (san : String) :
    '/' ∉ (extractTrustDomain san).toList := by
  rcases extractTrustDomain_cases san with h | ⟨r, _, _, h⟩
  · rw [h]
    decide
  · rw [h]
    exact not_mem_take_indexOf '/' r.data

theorem firstUriTrustDomain_slash_free (names : List GENERAL_NAME) :
    '/' ∉ (firstUriTrustDomain names).toList := by
  induction names with
  | nil => decide
  | cons n rest ih =>
    by_cases hn : n.type = GEN_URI
    · simp only [firstUriTrustDomain, hn, ne_eq, not_true_eq_false, if_false]
      exact extractTrustDomain_slash_free _
    · simpa [firstUriTrustDomain, hn] using ih

theorem empty_eq_false_iff (t : String) : empty t = false ↔ t ≠ "" := by
  constructor
  · intro h ht
    rw [(empty_iff t).mpr ht] at h
    cases h
  · intro h
    cases hb : empty t
    · rfl
    · exact absurd ((empty_iff t).mp hb) h

theorem firstUriTrustDomain_append (pre post : List GENERAL_NAME) (g : GENERAL_NAME)
    (hpre : ∀ n ∈ pre, n.type ≠ GEN_URI) (hg : g.type = GEN_URI) :
    firstUriTrustDomain (pre ++ g :: post) = extractTrustDomain (generalNameAsString g) := by
  induction pre with
  | nil => simp [firstUriTrustDomain, hg]
  | cons n rest ih =>
    have hn : n.type ≠ GEN_URI := hpre n (List.mem_cons_self _ _)
    have hrest : ∀ m ∈ rest, m.type ≠ GEN_URI :=
      fun m hm => hpre m (List.mem_cons_of_mem _ hm)
    simp [firstUriTrustDomain, hn, ih hrest]

theorem getTrustBundleStore_of_san (v : SPIFFEValidator) (leaf : X509)
    (names : List GENERAL_NAME) (hsan : leaf.subject_alt_name = some names) :
    getTrustBundleStore v leaf =
      if firstUriTrustDomain names = "" then none
      else v.trust_bundle_stores_ (firstUriTrustDomain names) := by
  unfold getTrustBundleStore
  simp only [hsan]
  by_cases he : firstUriTrustDomain names = ""
  · simp [he, (empty_iff "").mpr rfl]
  · simp [he, (empty_eq_false_iff _).mpr he]

theorem doVerifyCertChain_fst_of_no_store (env : Externals) (v : SPIFFEValidator)
    (store_ctx : X509_STORE_CTX) (leaf : X509) (s : VerifyState)
    (hstore : getTrustBundleStore v leaf = none) :
    (doVerifyCertChain env v store_ctx leaf s).1 = 0 := by
  cases hpre : certificatePrecheck leaf with
  | false => rw [doVerifyCertChain_of_reject env v store_ctx leaf s hpre]
  | true => rw [doVerifyCertChain_of_no_store env v store_ctx leaf s hpre hstore]

theorem to_size_t_le (i : Int) : to_size_t i ≤ SIZE_MAX := by
  unfold to_size_t SIZE_MAX
  have h1 : i % 2 ^ 64 < 2 ^ 64 := Int.emod_lt_of_pos i (by norm_num)
  have h2 : 0 ≤ i % 2 ^ 64 := Int.emod_nonneg i (by norm_num)
  omega

theorem to_size_t_of_range (i : Int) (h0 : 0 ≤ i) (h1 : i ≤ SIZE_MAX) :
    (to_size_t i : Int) = i := by
  unfold to_size_t
  unfold SIZE_MAX at h1
  have h2 : i % 2 ^ 64 = i := Int.emod_eq_of_lt h0 (by omega)
  rw [h2]
  omega

theorem foldl_min_spec (g : X509 → Int) (l : List X509) (init : Nat) :
    l.foldl (fun ret cert =>
        if to_size_t (g cert) < ret then to_size_t (g cert) else ret) init ≤ init ∧
    (∀ c ∈ l, l.foldl (fun ret cert =>
        if to_size_t (g cert) < ret then to_size_t (g cert) else ret) init ≤ to_size_t (g c)) ∧
    (l.foldl (fun ret cert =>
        if to_size_t (g cert) < ret then to_size_t (g cert) else ret) init = init ∨
      ∃ c ∈ l, l.foldl (fun ret cert =>
        if to_size_t (g cert) < ret then to_size_t (g cert) else ret) init = to_size_t (g c)) := by
  induction l generalizing init with
  | nil => simp
  | cons a l ih =>
    simp only [List.foldl_cons]
    by_cases hlt : to_size_t (g a) < init
    · simp only [hlt, if_true]
      obtain ⟨h1, h2, h3⟩ := ih (to_size_t (g a))
      refine ⟨by omega, ?_, ?_⟩
      · intro c hc
        rcases List.mem_cons.mp hc with rfl | hc
        · exact h1
        · exact h2 c hc
      · right
        rcases h3 with h3 | ⟨c, hc, h3⟩
        · exact ⟨a, List.mem_cons_self _ _, h3⟩
        · exact ⟨c, List.mem_cons_of_mem _ hc, h3⟩
    · simp only [hlt, if_false]
      obtain ⟨h1, h2, h3⟩ := ih init
      refine ⟨h1, ?_, ?_⟩
      · intro c hc
        rcases List.mem_cons.mp hc with rfl | hc
        · omega
        · exact h2 c hc
      · rcases h3 with h3 | ⟨c, hc, h3⟩
        · exact Or.inl h3
        · exact Or.inr ⟨c, List.mem_cons_of_mem _ hc, h3⟩

theorem daysUntilFirstCertExpires_spec (g : X509 → Int) (v : SPIFFEValidator)
    (hne : v.ca_certs_ ≠ []) :
    (∃ c ∈ v.ca_certs_, daysUntilFirstCertExpires g v = to_size_t (g c)) ∧
      ∀ c ∈ v.ca_certs_, daysUntilFirstCertExpires g v ≤ to_size_t (g c) := by
  have hemp : v.ca_certs_.isEmpty = false := by
    cases hc : v.ca_certs_ with
    | nil => exact absurd hc hne
    | cons a l => rfl
  have hfold : daysUntilFirstCertExpires g v =
      v.ca_certs_.foldl (fun ret cert =>
        if to_size_t (g cert) < ret then to_size_t (g cert) else ret) SIZE_MAX := by
    unfold daysUntilFirstCertExpires
    simp only [hemp, Bool.false_eq_true, if_false]
  rw [hfold]
  obtain ⟨_, h2, h3⟩ := foldl_min_spec g v.ca_certs_ SIZE_MAX
  refine ⟨?_, h2⟩
  rcases h3 with h3 | h3
  · obtain ⟨a, ha⟩ := List.exists_mem_of_ne_nil _ hne
    refine ⟨a, ha, ?_⟩
    have hle := h2 a ha
    have hmax := to_size_t_le (g a)
    omega
  · exact h3

theorem doVerifyCertChain_of_store (env : Externals) (v : SPIFFEValidator)
    (store_ctx : X509_STORE_CTX) (leaf : X509) (s : VerifyState) (st : X509_STORE)
    (hpre : certificatePrecheck leaf = true) (hstore : getTrustBundleStore v leaf = some st) :
    doVerifyCertChain env v store_ctx leaf s =
      (env.X509_verify_cert
          { store := st, cert := leaf, untrusted := store_ctx.chain,
            param := env.X509_VERIFY_PARAM_inherit X509_VERIFY_PARAM_new store_ctx.param,
            chain := [] },
        (if env.X509_verify_cert
              { store := st, cert := leaf, untrusted := store_ctx.chain,
                param := env.X509_VERIFY_PARAM_inherit X509_VERIFY_PARAM_new store_ctx.param,
                chain := [] } = 0
          then VerifyState.inc_fail_verify_error_ else id)
          ((if s.ssl_extended_info.isSome then
              fun t : VerifyState => t.setCertificateValidationStatus
                (if env.X509_verify_cert
                    { store := st, cert := leaf, untrusted := store_ctx.chain,
                      param := env.X509_VERIFY_PARAM_inherit X509_VERIFY_PARAM_new store_ctx.param,
                      chain := [] } = 1
                  then ClientValidationStatus.Validated else ClientValidationStatus.Failed)
            else id)
            { s with calls := s.calls ++
                [Call.X509_verify_cert
                  { store := st, cert := leaf, untrusted := store_ctx.chain,
                    param := env.X509_VERIFY_PARAM_inherit X509_VERIFY_PARAM_new store_ctx.param,
                    chain := [] }] })) := by
  simp only [doVerifyCertChain, hpre, hstore, X509_STORE_CTX_init, X509_STORE_CTX_set0_param,
    X509_STORE_CTX_get0_chain, X509_STORE_CTX_get0_param, Bool.not_true, Bool.false_eq_true,
    if_false]
  split <;> split <;> rfl

theorem loadItem_spec (d : TrustDomain) (b : BundleLoad) (item : X509_INFO) :
    (loadItem d b item).ca_certs_ = b.ca_certs_ ++ bundleCerts [item] ∧
    (∀ c, c ∈ (loadItem d b item).store.certs ↔ c ∈ b.store.certs ∨ c ∈ bundleCerts [item]) ∧
    (∀ r, r ∈ (loadItem d b item).store.crls ↔ r ∈ b.store.crls ∨ r ∈ bundleCrls [item]) ∧
    ((loadItem d b item).has_crl = true ↔ b.has_crl = true ∨ bundleCrls [item] ≠ []) ∧
    (loadItem d b item).store.param = b.store.param := by
  obtain ⟨x, r⟩ := item
  cases x with
  | none =>
    cases r with
    | none => simp [loadItem, bundleCerts, bundleCrls]
    | some r =>
      by_cases hr : r ∈ b.store.crls
      · simp [loadItem, bundleCerts, bundleCrls, X509_STORE_add_crl, hr]
      · simp [loadItem, bundleCerts, bundleCrls, X509_STORE_add_crl, hr]
  | some x =>
    cases r with
    | none =>
      by_cases hx : x ∈ b.store.certs
      · cases hl : b.ca_loaded <;>
          simp [loadItem, bundleCerts, bundleCrls, X509_STORE_add_cert, hx, hl]
      · cases hl : b.ca_loaded <;>
          simp [loadItem, bundleCerts, bundleCrls, X509_STORE_add_cert, hx, hl]
    | some r =>
      by_cases hx : x ∈ b.store.certs
      · by_cases hr : r ∈ b.store.crls
        · cases hl : b.ca_loaded <;>
            simp [loadItem, bundleCerts, bundleCrls, X509_STORE_add_cert, X509_STORE_add_crl,
              hx, hr, hl]
        · cases hl : b.ca_loaded <;>
            simp [loadItem, bundleCerts, bundleCrls, X509_STORE_add_cert, X509_STORE_add_crl,
              hx, hr, hl]
      · by_cases hr : r ∈ b.store.crls
        · cases hl : b.ca_loaded <;>
            simp [loadItem, bundleCerts, bundleCrls, X509_STORE_add_cert, X509_STORE_add_crl,
              hx, hr, hl]
        · cases hl : b.ca_loaded <;>
            simp [loadItem, bundleCerts, bundleCrls, X509_STORE_add_cert, X509_STORE_add_crl,
              hx, hr, hl]

theorem bundleCerts_cons (item : X509_INFO) (items : List X509_INFO) :
    bundleCerts (item :: items) = bundleCerts [item] ++ bundleCerts items := by
  cases hx : item.x509 <;> simp [bundleCerts, List.filterMap_cons, hx]

theorem bundleCrls_cons (item : X509_INFO) (items : List X509_INFO) :
    bundleCrls (item :: items) = bundleCrls [item] ++ bundleCrls items := by
  cases hx : item.crl <;> simp [bundleCrls, List.filterMap_cons, hx]

theorem foldl_loadItem_spec (d : TrustDomain) (items : List X509_INFO) (b : BundleLoad) :
    (items.foldl (loadItem d) b).ca_certs_ = b.ca_certs_ ++ bundleCerts items ∧
    (∀ c, c ∈ (items.foldl (loadItem d) b).store.certs ↔
      c ∈ b.store.certs ∨ c ∈ bundleCerts items) ∧
    (∀ r, r ∈ (items.foldl (loadItem d) b).store.crls ↔
      r ∈ b.store.crls ∨ r ∈ bundleCrls items) ∧
    ((items.foldl (loadItem d) b).has_crl = true ↔ b.has_crl = true ∨ bundleCrls items ≠ []) ∧
    (items.foldl (loadItem d) b).store.param = b.store.param := by
  induction items generalizing b with
  | nil => simp [bundleCerts, bundleCrls]
  | cons item items ih =>
    obtain ⟨h1, h2, h3, h4, h5⟩ := ih (loadItem d b item)
    obtain ⟨g1, g2, g3, g4, g5⟩ := loadItem_spec d b item
    simp only [List.foldl_cons]
    refine ⟨?_, ?_, ?_, ?_, ?_⟩
    · rw [h1, g1, bundleCerts_cons item items, List.append_assoc]
    · intro c
      rw [h2 c, g2 c, bundleCerts_cons item items, List.mem_append, or_assoc]
    · intro r
      rw [h3 r, g3 r, bundleCrls_cons item items, List.mem_append, or_assoc]
    · rw [h4, g4, bundleCrls_cons item items]
      simp only [ne_eq, List.append_eq_nil, not_and_or, or_assoc]
    · rw [h5, g5]

theorem loadTrustDomain_ok (env : Externals) (v v1 : SPIFFEValidator) (d : TrustDomain)
    (h : loadTrustDomain env v d = .ok v1) :
    v.trust_bundle_stores_ d.name = none ∧
    decodedBundle env d ≠ [] ∧
    v1.ca_certs_ = v.ca_certs_ ++ bundleCerts (decodedBundle env d) ∧
    ∃ st, v1.trust_bundle_stores_ = Function.update v.trust_bundle_stores_ d.name (some st) ∧
      (∀ c, c ∈ st.certs ↔ c ∈ bundleCerts (decodedBundle env d)) ∧
      (∀ r, r ∈ st.crls ↔ r ∈ bundleCrls (decodedBundle env d)) ∧
      st.param.flags =
        if bundleCrls (decodedBundle env d) = [] then 0
        else X509_V_FLAG_CRL_CHECK ||| X509_V_FLAG_CRL_CHECK_ALL := by
  unfold loadTrustDomain at h
  by_cases hdup : (v.trust_bundle_stores_ d.name).isSome = true
  · rw [if_pos hdup] at h
    cases h
  · rw [if_neg hdup] at h
    cases hr : env.read d.trust_bundle with
    | error e =>
      simp only [hr] at h
      cases h
    | ok bytes =>
      cases hd : env.PEM_X509_INFO_read_bio bytes with
      | none =>
        simp only [hr, hd] at h
        cases h
      | some items =>
        by_cases hl : items.length = 0
        · simp only [hr, hd, hl, if_true] at h
          cases h
        · have hdec : decodedBundle env d = items := by
            simp [decodedBundle, hr, hd]
          obtain ⟨f1, f2, f3, f4, f5⟩ := foldl_loadItem_spec d items
            { store := X509_STORE_new, has_crl := false, ca_loaded := false,
              ca_certs_ := v.ca_certs_, ca_file_name_ := v.ca_file_name_ }
          simp only [hr, hd, hl, if_false] at h
          generalize List.foldl (loadItem d)
            { store := X509_STORE_new, has_crl := false, ca_loaded := false,
              ca_certs_ := v.ca_certs_, ca_file_name_ := v.ca_file_name_ } items = b
            at h f1 f2 f3 f4 f5
          injection h with h
          subst h
          rw [hdec]
          have hnone : v.trust_bundle_stores_ d.name = none := by
            cases hv : v.trust_bundle_stores_ d.name with
            | none => rfl
            | some st => simp [hv] at hdup
          have hne : items ≠ [] := by
            intro hnil
            exact hl (by rw [hnil]; rfl)
          have hcert : ∀ c, c ∈ b.store.certs ↔ c ∈ bundleCerts items := by
            intro c
            rw [f2 c]
            simp [X509_STORE_new]
          have hcrl : ∀ r, r ∈ b.store.crls ↔ r ∈ bundleCrls items := by
            intro r
            rw [f3 r]
            simp [X509_STORE_new]
          have hflag : b.store.param.flags = 0 := by
            rw [f5]
            rfl
          have hhas : b.has_crl = true ↔ bundleCrls items ≠ [] := by
            rw [f4]
            simp
          by_cases hc : bundleCrls items = []
          · have hb : ¬ b.has_crl = true := by
              rw [hhas]
              simp [hc]
            refine ⟨hnone, hne, f1, b.store, ?_, hcert, hcrl, ?_⟩
            · simp [hb]
            · rw [if_pos hc, hflag]
          · have hb : b.has_crl = true := hhas.mpr hc
            refine ⟨hnone, hne, f1,
              X509_STORE_set_flags b.store (X509_V_FLAG_CRL_CHECK ||| X509_V_FLAG_CRL_CHECK_ALL),
              ?_, hcert, hcrl, ?_⟩
            · simp [hb]
            · rw [if_neg hc]
              simp only [X509_STORE_set_flags, hflag]
              rfl

theorem loadTrustDomains_ok (env : Externals) (ds : List TrustDomain) (v w : SPIFFEValidator)
    (h : loadTrustDomains env ds v = .ok w) :
    w.ca_certs_ =
      v.ca_certs_ ++ (ds.map (fun d => bundleCerts (decodedBundle env d))).flatten ∧
    (∀ k, (v.trust_bundle_stores_ k).isSome = true →
      w.trust_bundle_stores_ k = v.trust_bundle_stores_ k) ∧
    (∀ d ∈ ds, decodedBundle env d ≠ [] ∧
      ∃ st, w.trust_bundle_stores_ d.name = some st ∧
        (∀ c, c ∈ st.certs ↔ c ∈ bundleCerts (decodedBundle env d)) ∧
        (∀ r, r ∈ st.crls ↔ r ∈ bundleCrls (decodedBundle env d)) ∧
        st.param.flags =
          if bundleCrls (decodedBundle env d) = [] then 0
          else X509_V_FLAG_CRL_CHECK ||| X509_V_FLAG_CRL_CHECK_ALL) ∧
    (∀ k st, w.trust_bundle_stores_ k = some st →
      v.trust_bundle_stores_ k = some st ∨ ∃ d ∈ ds, d.name = k) := by
  induction ds generalizing v with
  | nil =>
    simp only [loadTrustDomains] at h
    injection h with h
    subst h
    simp
  | cons d ds ih =>
    simp only [loadTrustDomains] at h
    cases hm : loadTrustDomain env v d with
    | error e =>
      rw [hm] at h
      cases h
    | ok v1 =>
      rw [hm] at h
      obtain ⟨i1, i2, i3, i4⟩ := ih v1 h
      obtain ⟨hnone, hne, hca, st, hupd, hcert, hcrl, hflag⟩ := loadTrustDomain_ok env v v1 d hm
      have hkeep : ∀ k, (v.trust_bundle_stores_ k).isSome = true →
          v1.trust_bundle_stores_ k = v.trust_bundle_stores_ k := by
        intro k hk
        have hkd : k ≠ d.name := by
          rintro rfl
          rw [hnone] at hk
          cases hk
        rw [hupd, Function.update_noteq hkd]
      have hself : v1.trust_bundle_stores_ d.name = some st := by
        rw [hupd, Function.update_same]
      refine ⟨?_, ?_, ?_, ?_⟩
      · rw [i1, hca, List.map_cons, List.flatten_cons, List.append_assoc]
      · intro k hk
        have h1 := hkeep k hk
        rw [i2 k (by rw [h1]; exact hk), h1]
      · intro d1 hd1
        rcases List.mem_cons.mp hd1 with rfl | hd1
        · refine ⟨hne, st, ?_, hcert, hcrl, hflag⟩
          rw [i2 d1.name (by rw [hself]; rfl), hself]
        · exact i3 d1 hd1
      · intro k st1 hk
        rcases i4 k st1 hk with h1 | ⟨d1, hd1, hname⟩
        · by_cases hkd : k = d.name
          · exact Or.inr ⟨d, List.mem_cons_self _ _, hkd.symm⟩
          · left
            rw [hupd, Function.update_noteq hkd] at h1
            exact h1
        · exact Or.inr ⟨d1, List.mem_cons_of_mem _ hd1, hname⟩

theorem and_ne_zero_of_flags (flags : Nat)
    (h : flags = 0 ∨ flags = X509_V_FLAG_CRL_CHECK ||| X509_V_FLAG_CRL_CHECK_ALL) :
    (flags &&& X509_V_FLAG_CRL_CHECK ≠ 0 ↔ flags ≠ 0) ∧
      (flags &&& X509_V_FLAG_CRL_CHECK_ALL ≠ 0 ↔ flags ≠ 0) := by
  rcases h with h | h
  · subst h
    simp
  · subst h
    decide

/-! ## Theorems -/

/-- C4: `certificatePrecheck` accepts a certificate exactly when its extension
flags do not have the CA bit and its key usage has neither the CRL-sign bit nor
the certificate-sign bit, both as masks with the header constants and as the
bits 4, 1 and 2 of the two words; a certificate with the CA bit set is
rejected whatever its key usage is. -/
theorem certificatePrecheck_iff :
    (∀ leaf : X509, certificatePrecheck leaf = true ↔
      (leaf.ex_flags &&& EXFLAG_CA = 0 ∧ leaf.ex_kusage &&& KU_CRL_SIGN = 0 ∧
        leaf.ex_kusage &&& KU_KEY_CERT_SIGN = 0)) ∧
    (∀ leaf : X509, certificatePrecheck leaf = true ↔
      (leaf.ex_flags.testBit 4 = false ∧ leaf.ex_kusage.testBit 1 = false ∧
        leaf.ex_kusage.testBit 2 = false)) ∧
    (∀ (leaf : X509) (ku : Nat),
      certificatePrecheck
        { leaf with ex_flags := leaf.ex_flags ||| EXFLAG_CA, ex_kusage := ku } = false) := by
  have hmask : ∀ leaf : X509, certificatePrecheck leaf = true ↔
      (leaf.ex_flags &&& EXFLAG_CA = 0 ∧ leaf.ex_kusage &&& KU_CRL_SIGN = 0 ∧
        leaf.ex_kusage &&& KU_KEY_CERT_SIGN = 0) := by
    intro leaf
    unfold certificatePrecheck
    by_cases hca : leaf.ex_flags &&& EXFLAG_CA = 0
    · simp [hca, and_mask_eq_zero_iff]
    · simp [hca]
  refine ⟨hmask, ?_, ?_⟩
  · intro leaf
    rw [hmask leaf]
    have h4 : EXFLAG_CA = 2 ^ 4 := by decide
    have h1 : KU_CRL_SIGN = 2 ^ 1 := by decide
    have h2 : KU_KEY_CERT_SIGN = 2 ^ 2 := by decide
    rw [h4, h1, h2, and_two_pow_eq_zero_iff, and_two_pow_eq_zero_iff, and_two_pow_eq_zero_iff]
  · intro leaf ku
    unfold certificatePrecheck
    have h : (leaf.ex_flags ||| EXFLAG_CA) &&& EXFLAG_CA ≠ 0 := by
      intro h0
      have h16 : Nat.testBit 16 4 = true := by decide
      have := congrArg (fun n => Nat.testBit n 4) h0
      simp [EXFLAG_CA, Nat.testBit_and, Nat.testBit_or, h16] at this
    simp [h]

/-- C6: `extractTrustDomain` returns the empty string for every string that
does not begin with the literal `spiffe://`. -/
theorem extractTrustDomain_not_spiffe (san : String)
    (h : ∀ rest : String, san ≠ "spiffe://" ++ rest) :
    extractTrustDomain san = "" := by
  have hs : StartsWith san prefix_ = false := by
    cases hb : StartsWith san prefix_
    · rfl
    · obtain ⟨rest, hrest⟩ := (startsWith_iff san).mp hb
      exact absurd hrest (h rest)
  simp [extractTrustDomain, hs]

/-- C6, at concrete inputs: the empty string, a string shorter than the
scheme, and the scheme in upper case all yield the empty string. -/
theorem extractTrustDomain_not_spiffe_witness :
    extractTrustDomain "" = "" ∧ extractTrustDomain "spif" = "" ∧
      extractTrustDomain "SPIFFE://example.org/workload" = "" := by
  refine ⟨extractTrustDomain_not_spiffe "" ?_, extractTrustDomain_not_spiffe "spif" ?_,
    extractTrustDomain_not_spiffe "SPIFFE://example.org/workload" ?_⟩ <;>
  · intro rest hrest
    have := congrArg String.data hrest
    rw [data_spiffe_append] at this
    simp [prefix_] at this

/-- C7: for a label `d` without `/` and any remainder, `extractTrustDomain`
of `spiffe://` followed by `d`, a `/` and the remainder is exactly `d`. -/
theorem extractTrustDomain_label (d rest : String) (hd : '/' ∉ d.toList) :
    extractTrustDomain ("spiffe://" ++ d ++ "/" ++ rest) = d := by
  have hassoc : "spiffe://" ++ d ++ "/" ++ rest = "spiffe://" ++ (d ++ "/" ++ rest) := by
    simp [String.append_assoc]
  have hsw : StartsWith ("spiffe://" ++ d ++ "/" ++ rest) prefix_ = true :=
    (startsWith_iff _).mpr ⟨d ++ "/" ++ rest, hassoc⟩
  have hdrop : ("spiffe://" ++ d ++ "/" ++ rest).data.drop 9 = d.data ++ '/' :: rest.data := by
    rw [hassoc, drop_spiffe_append]
    simp [String.data_append]
  have hd1 : '/' ∉ d.data := hd
  have hidx : (d.data ++ '/' :: rest.data).indexOf '/' = d.data.length := by
    rw [List.indexOf_append_of_not_mem hd1, List.indexOf_cons_self]
    rfl
  have hmem : '/' ∈ d.data ++ '/' :: rest.data := by simp
  unfold extractTrustDomain
  simp only [hsw, Bool.not_true, Bool.false_eq_true, if_false, find, prefix_length, hdrop, hmem,
    if_true, hidx, substr, Nat.add_sub_cancel_left, List.take_left]

/-- C7, at the input of the specification: `spiffe://example.org/workload/foo`
yields `example.org`. -/
theorem extractTrustDomain_label_witness :
    '/' ∉ "example.org".toList ∧
      extractTrustDomain ("spiffe://" ++ "example.org" ++ "/" ++ "workload/foo") = "example.org" :=
  ⟨by decide, extractTrustDomain_label "example.org" "workload/foo" (by decide)⟩

/-- C8, as the code behaves: when no `/` follows the scheme, `extractTrustDomain`
returns the empty string, not the remainder. -/
theorem extractTrustDomain_no_slash (d : String) (hd : '/' ∉ d.toList) :
    extractTrustDomain ("spiffe://" ++ d) = "" := by
  have hsw : StartsWith ("spiffe://" ++ d) prefix_ = true := (startsWith_iff _).mpr ⟨d, rfl⟩
  have hmem : ¬ '/' ∈ d.data := hd
  unfold extractTrustDomain
  simp only [hsw, Bool.not_true, Bool.false_eq_true, if_false, find, prefix_length,
    drop_spiffe_append, hmem]

/-- C8, at the input of the specification: `spiffe://example.org` yields the
empty string. -/
theorem extractTrustDomain_no_slash_witness :
    '/' ∉ "example.org".toList ∧ extractTrustDomain ("spiffe://" ++ "example.org") = "" :=
  ⟨by decide, extractTrustDomain_no_slash "example.org" (by decide)⟩

/-- C8 as stated fails: `example.org` has no `/`, yet `spiffe://example.org`
does not yield `example.org`. -/
theorem extractTrustDomain_no_slash_counterexample :
    '/' ∉ "example.org".toList ∧
      extractTrustDomain ("spiffe://" ++ "example.org") ≠ "example.org" := by
  decide

/-- C5: for a leaf the precheck rejects, `doVerifyCertChain` returns 0, makes
no call of path validation, and its whole result is the same for every
registry, every SAN content of the leaf, every caller context and every
behaviour of the collaborators. -/
theorem doVerifyCertChain_precheck_rejected (env : Externals) (v : SPIFFEValidator)
    (store_ctx : X509_STORE_CTX) (leaf : X509) (s : VerifyState)
    (h : certificatePrecheck leaf = false) :
    (doVerifyCertChain env v store_ctx leaf s).1 = 0 ∧
    (∃ added, (doVerifyCertChain env v store_ctx leaf s).2.calls = s.calls ++ added ∧
      ∀ ctx, Call.X509_verify_cert ctx ∉ added) ∧
    (∀ (env1 : Externals) (v1 : SPIFFEValidator) (store_ctx1 : X509_STORE_CTX)
        (san1 : Option (List GENERAL_NAME)),
      doVerifyCertChain env1 v1 store_ctx1 { leaf with subject_alt_name := san1 } s =
        doVerifyCertChain env v store_ctx leaf s) := by
  have h1 : ∀ san1 : Option (List GENERAL_NAME),
      certificatePrecheck { leaf with subject_alt_name := san1 } = false := by
    intro san1
    simpa [certificatePrecheck] using h
  refine ⟨?_, ?_, ?_⟩
  · rw [doVerifyCertChain_of_reject env v store_ctx leaf s h]
  · rw [doVerifyCertChain_of_reject env v store_ctx leaf s h]
    exact failed_calls s
  · intro env1 v1 store_ctx1 san1
    rw [doVerifyCertChain_of_reject env v store_ctx leaf s h,
      doVerifyCertChain_of_reject env1 v1 store_ctx1 _ s (h1 san1)]

/-- C5, at a concrete input: a certificate with the CA flag whose URI names
the registered domain `a.org` is rejected with 0 although path validation
would accept it. -/
theorem doVerifyCertChain_precheck_rejected_witness :
    certificatePrecheck leafWithCaFlag = false ∧
      (doVerifyCertChain exampleEnv twoDomainValidator callerCtx leafWithCaFlag initialState).1 = 0 :=
  ⟨by decide,
    (doVerifyCertChain_precheck_rejected exampleEnv twoDomainValidator callerCtx leafWithCaFlag
      initialState (by decide)).1⟩

/-- C1: for a leaf that passes the precheck and whose first URI SAN entry
yields a label that is not a key of the registry, `doVerifyCertChain` returns
0 and makes no call of path validation, whatever path validation would
return. -/
theorem doVerifyCertChain_unregistered (env : Externals) (v : SPIFFEValidator)
    (store_ctx : X509_STORE_CTX) (leaf : X509) (s : VerifyState)
    (names : List GENERAL_NAME) (g : GENERAL_NAME)
    (hpre : certificatePrecheck leaf = true)
    (hsan : leaf.subject_alt_name = some names)
    (hfirst : names.find? (fun n => decide (n.type = GEN_URI)) = some g)
    (hkey : v.trust_bundle_stores_ (extractTrustDomain (generalNameAsString g)) = none) :
    (doVerifyCertChain env v store_ctx leaf s).1 = 0 ∧
    (∃ added, (doVerifyCertChain env v store_ctx leaf s).2.calls = s.calls ++ added ∧
      ∀ ctx, Call.X509_verify_cert ctx ∉ added) ∧
    (∀ env1 : Externals,
      doVerifyCertChain env1 v store_ctx leaf s = doVerifyCertChain env v store_ctx leaf s) := by
  have hstore : getTrustBundleStore v leaf = none := by
    rw [getTrustBundleStore_of_first_uri v leaf names g hsan hfirst, hkey]
    simp
  refine ⟨?_, ?_, ?_⟩
  · rw [doVerifyCertChain_of_no_store env v store_ctx leaf s hpre hstore]
  · rw [doVerifyCertChain_of_no_store env v store_ctx leaf s hpre hstore]
    exact failed_calls s
  · intro env1
    rw [doVerifyCertChain_of_no_store env v store_ctx leaf s hpre hstore,
      doVerifyCertChain_of_no_store env1 v store_ctx leaf s hpre hstore]

/-- C1, at a concrete input: a leaf of `c.org` is rejected by a validator
with the domains `a.org` and `b.org` although path validation would accept
it. -/
theorem doVerifyCertChain_unregistered_witness :
    certificatePrecheck leafC = true ∧
      twoDomainValidator.trust_bundle_stores_ "c.org" = none ∧
      (doVerifyCertChain exampleEnv twoDomainValidator callerCtx leafC initialState).1 = 0 :=
  ⟨by decide, by decide,
    (doVerifyCertChain_unregistered exampleEnv twoDomainValidator callerCtx leafC initialState
      [⟨GEN_URI, "spiffe://c.org/workload"⟩] ⟨GEN_URI, "spiffe://c.org/workload"⟩
      (by decide) rfl (by decide) (by decide)).1⟩

/-- C3: for a leaf whose SAN extension is absent or has no entry of type URI,
`doVerifyCertChain` returns 0 for every registry and every behaviour of path
validation, and path validation is not called. -/
theorem doVerifyCertChain_no_uri_san (env : Externals) (v : SPIFFEValidator)
    (store_ctx : X509_STORE_CTX) (leaf : X509) (s : VerifyState)
    (h : leaf.subject_alt_name = none ∨
      ∃ names, leaf.subject_alt_name = some names ∧ ∀ n ∈ names, n.type ≠ GEN_URI) :
    (doVerifyCertChain env v store_ctx leaf s).1 = 0 ∧
    (∃ added, (doVerifyCertChain env v store_ctx leaf s).2.calls = s.calls ++ added ∧
      ∀ ctx, Call.X509_verify_cert ctx ∉ added) := by
  have hstore : getTrustBundleStore v leaf = none := getTrustBundleStore_of_no_uri v leaf h
  cases hpre : certificatePrecheck leaf with
  | false =>
    rw [doVerifyCertChain_of_reject env v store_ctx leaf s hpre]
    exact ⟨rfl, failed_calls s⟩
  | true =>
    rw [doVerifyCertChain_of_no_store env v store_ctx leaf s hpre hstore]
    exact ⟨rfl, failed_calls s⟩

/-- C3, at a concrete input: a leaf whose SAN holds a DNS entry only is
rejected with 0. -/
theorem doVerifyCertChain_no_uri_san_witness :
    (∀ n ∈ [(⟨2, "a.org"⟩ : GENERAL_NAME)], n.type ≠ GEN_URI) ∧
      (doVerifyCertChain exampleEnv twoDomainValidator callerCtx leafDnsOnly initialState).1 = 0 :=
  ⟨by decide,
    (doVerifyCertChain_no_uri_san exampleEnv twoDomainValidator callerCtx leafDnsOnly
      initialState (Or.inr ⟨[⟨2, "a.org"⟩], rfl, by decide⟩)).1⟩

/-- C2, as the code behaves: for a leaf that passes the precheck and whose
first URI SAN entry yields a non-empty label registered with store `st`,
`doVerifyCertChain` returns the return code of path validation on the context
with target the leaf, untrusted chain the caller context's chain, parameters
inherited from the caller context and store `st`; any registry that maps the
label to `st` gives the same result. -/
theorem doVerifyCertChain_registered (env : Externals) (v : SPIFFEValidator)
    (store_ctx : X509_STORE_CTX) (leaf : X509) (s : VerifyState)
    (names : List GENERAL_NAME) (g : GENERAL_NAME) (st : X509_STORE)
    (hpre : certificatePrecheck leaf = true)
    (hsan : leaf.subject_alt_name = some names)
    (hfirst : names.find? (fun n => decide (n.type = GEN_URI)) = some g)
    (hne : extractTrustDomain (generalNameAsString g) ≠ "")
    (hkey : v.trust_bundle_stores_ (extractTrustDomain (generalNameAsString g)) = some st) :
    (doVerifyCertChain env v store_ctx leaf s).1 =
      env.X509_verify_cert
        { store := st, cert := leaf, untrusted := store_ctx.chain,
          param := env.X509_VERIFY_PARAM_inherit X509_VERIFY_PARAM_new store_ctx.param,
          chain := [] } ∧
    (∀ v1 : SPIFFEValidator,
      v1.trust_bundle_stores_ (extractTrustDomain (generalNameAsString g)) = some st →
      doVerifyCertChain env v1 store_ctx leaf s = doVerifyCertChain env v store_ctx leaf s) := by
  have hstore : ∀ w : SPIFFEValidator,
      w.trust_bundle_stores_ (extractTrustDomain (generalNameAsString g)) = some st →
      getTrustBundleStore w leaf = some st := by
    intro w hw
    rw [getTrustBundleStore_of_first_uri w leaf names g hsan hfirst, hw]
    simp [hne]
  constructor
  · simp [doVerifyCertChain, hpre, hstore v hkey, X509_STORE_CTX_init,
      X509_STORE_CTX_set0_param, X509_STORE_CTX_get0_chain, X509_STORE_CTX_get0_param]
  · intro v1 hv1
    simp [doVerifyCertChain, hpre, hstore v hkey, hstore v1 hv1]

/-- C2, at a concrete input: the leaf of `a.org` is validated against the
store of `a.org` and the accepting path validation gives 1. -/
theorem doVerifyCertChain_registered_witness :
    certificatePrecheck leafA = true ∧
      twoDomainValidator.trust_bundle_stores_ "a.org" = some storeA ∧
      (doVerifyCertChain exampleEnv twoDomainValidator callerCtx leafA initialState).1 = 1 :=
  ⟨by decide, by decide,
    (doVerifyCertChain_registered exampleEnv twoDomainValidator callerCtx leafA initialState
      [⟨2, "a.org"⟩, ⟨GEN_URI, "spiffe://a.org/workload"⟩] ⟨GEN_URI, "spiffe://a.org/workload"⟩
      storeA (by decide) rfl (by decide) (by decide) (by decide)).1⟩

/-- C2 as stated fails: the constructor accepts a trust domain whose label is
the empty string; a leaf whose first URI is not a SPIFFE identifier yields the
empty label, which is then a key of the registry, yet `doVerifyCertChain`
returns 0 and not the code 1 that path validation gives on the registered
store. -/
theorem doVerifyCertChain_registered_counterexample :
    SPIFFEValidator.create exampleEnv [{ name := "", trust_bundle := ⟨"", "PEM a"⟩ }] =
        .ok emptyLabelValidator ∧
      certificatePrecheck leafWebUri = true ∧
      leafWebUri.subject_alt_name = some [⟨GEN_URI, "https://a.org/workload"⟩] ∧
      extractTrustDomain (generalNameAsString ⟨GEN_URI, "https://a.org/workload"⟩) = "" ∧
      emptyLabelValidator.trust_bundle_stores_ "" = some storeA ∧
      exampleEnv.X509_verify_cert
        { store := storeA, cert := leafWebUri, untrusted := callerCtx.chain,
          param := exampleEnv.X509_VERIFY_PARAM_inherit X509_VERIFY_PARAM_new callerCtx.param,
          chain := [] } = 1 ∧
      (doVerifyCertChain exampleEnv emptyLabelValidator callerCtx leafWebUri initialState).1 = 0 := by
  refine ⟨rfl, ?_, ?_, ?_, ?_, ?_, ?_⟩ <;> decide

/-- C9: when two entries of the configured sequence carry the same label,
whatever their bundles and the entries between them, the constructor throws:
no validator is produced. -/
theorem create_duplicate_label (env : Externals) (pre mid post : List TrustDomain)
    (a b : TrustDomain) (hab : a.name = b.name) :
    ∃ e, SPIFFEValidator.create env (pre ++ a :: (mid ++ b :: post)) = .error e := by
  unfold SPIFFEValidator.create
  rw [loadTrustDomains_append]
  cases loadTrustDomains env pre
      { trust_bundle_stores_ := fun _ => none, ca_certs_ := [], ca_file_name_ := "" } with
  | error e => exact ⟨e, rfl⟩
  | ok v1 => exact loadTrustDomains_cons_dup env mid post a b v1 hab

/-- C9, at a concrete input: the label `a.org` given twice, with different
bundles and another domain in between, makes the constructor throw, while the
first two entries alone load. -/
theorem create_duplicate_label_witness :
    SPIFFEValidator.create exampleEnv
        [⟨"a.org", ⟨"", "PEM a"⟩⟩, ⟨"b.org", ⟨"", "PEM b"⟩⟩] = .ok twoDomainValidator ∧
      ∃ e, SPIFFEValidator.create exampleEnv
        ([] ++ ⟨"a.org", ⟨"", "PEM a"⟩⟩ ::
          ([⟨"b.org", ⟨"", "PEM b"⟩⟩] ++ ⟨"a.org", ⟨"", "PEM b"⟩⟩ :: [])) = .error e :=
  ⟨rfl,
    create_duplicate_label exampleEnv [] [⟨"b.org", ⟨"", "PEM b"⟩⟩] []
      ⟨"a.org", ⟨"", "PEM a"⟩⟩ ⟨"a.org", ⟨"", "PEM b"⟩⟩ rfl⟩

/-- The emptiness check of the constructor (line 65): when the decoder returns
the null list or a list of zero entries for the bundle of some entry of the
configured sequence, the constructor throws, whatever precedes and follows
that entry. -/
theorem create_undecodable_bundle (env : Externals) (pre post : List TrustDomain)
    (d : TrustDomain)
    (h : ∀ bytes, env.read d.trust_bundle = .ok bytes →
      env.PEM_X509_INFO_read_bio bytes = none ∨ env.PEM_X509_INFO_read_bio bytes = some []) :
    ∃ e, SPIFFEValidator.create env (pre ++ d :: post) = .error e := by
  unfold SPIFFEValidator.create
  exact loadTrustDomains_error_at env pre post d _
    (fun w => loadTrustDomain_undecodable env w d h)

/-- The emptiness check at a concrete input: a domain whose bundle decodes to
no entry makes the constructor throw although the domain before it loads. -/
theorem create_undecodable_bundle_witness :
    (SPIFFEValidator.create exampleEnv [⟨"a.org", ⟨"", "PEM a"⟩⟩]).toOption.isSome = true ∧
      exampleEnv.PEM_X509_INFO_read_bio "" = some [] ∧
      ∃ e, SPIFFEValidator.create exampleEnv
        ([⟨"a.org", ⟨"", "PEM a"⟩⟩] ++ ⟨"b.org", ⟨"b.pem", ""⟩⟩ :: []) = .error e :=
  ⟨by decide, by decide,
    create_undecodable_bundle exampleEnv [⟨"a.org", ⟨"", "PEM a"⟩⟩] [] ⟨"b.org", ⟨"b.pem", ""⟩⟩
      (by
        intro bytes hb
        have hbytes : bytes = "" := by
          simp only [exampleEnv] at hb
          injection hb with hb
          exact hb.symm
        subst hbytes
        exact Or.inr (by decide))⟩

/-- C16: for a SAN list whose entries before `g` are not URIs and whose entry
`g` is a URI, the store `getTrustBundleStore` selects is decided by `g` alone:
it is the store selected for the list holding only `g`, namely the one
registered under the label of `g` when that label is not empty, for every
choice of the entries before and after `g`; and when the label of `g` is not
registered, `doVerifyCertChain` returns 0 whatever follows `g`. -/
theorem getTrustBundleStore_first_uri (v : SPIFFEValidator) (leaf : X509)
    (pre post : List GENERAL_NAME) (g : GENERAL_NAME)
    (hpre : ∀ n ∈ pre, n.type ≠ GEN_URI) (hg : g.type = GEN_URI) :
    getTrustBundleStore v { leaf with subject_alt_name := some (pre ++ g :: post) } =
      getTrustBundleStore v { leaf with subject_alt_name := some [g] } ∧
    getTrustBundleStore v { leaf with subject_alt_name := some (pre ++ g :: post) } =
      (if extractTrustDomain (generalNameAsString g) = "" then none
       else v.trust_bundle_stores_ (extractTrustDomain (generalNameAsString g))) ∧
    (v.trust_bundle_stores_ (extractTrustDomain (generalNameAsString g)) = none →
      ∀ (env : Externals) (store_ctx : X509_STORE_CTX) (s : VerifyState),
        (doVerifyCertChain env v store_ctx
          { leaf with subject_alt_name := some (pre ++ g :: post) } s).1 = 0) := by
  have hall : getTrustBundleStore v { leaf with subject_alt_name := some (pre ++ g :: post) } =
      (if extractTrustDomain (generalNameAsString g) = "" then none
       else v.trust_bundle_stores_ (extractTrustDomain (generalNameAsString g))) := by
    rw [getTrustBundleStore_of_san v _ (pre ++ g :: post) rfl,
      firstUriTrustDomain_append pre post g hpre hg]
  have hone : getTrustBundleStore v { leaf with subject_alt_name := some [g] } =
      (if extractTrustDomain (generalNameAsString g) = "" then none
       else v.trust_bundle_stores_ (extractTrustDomain (generalNameAsString g))) := by
    rw [getTrustBundleStore_of_san v _ [g] rfl]
    have := firstUriTrustDomain_append [] [] g (by simp) hg
    simp only [List.nil_append] at this
    rw [this]
  refine ⟨hall.trans hone.symm, hall, ?_⟩
  intro hkey env store_ctx s
  apply doVerifyCertChain_fst_of_no_store
  rw [hall, hkey]
  simp

/-- C16, at a concrete input: a leaf whose first URI names the unregistered
`c.org` is rejected although its second URI names the registered `a.org`. -/
theorem getTrustBundleStore_first_uri_witness :
    twoDomainValidator.trust_bundle_stores_ "a.org" = some storeA ∧
      getTrustBundleStore twoDomainValidator leafTwoUris = none ∧
      (doVerifyCertChain exampleEnv twoDomainValidator callerCtx leafTwoUris initialState).1 = 0 :=
  ⟨by decide,
    ((getTrustBundleStore_first_uri twoDomainValidator leafTwoUris [⟨2, "a.org"⟩]
      [⟨GEN_URI, "spiffe://a.org/workload"⟩] ⟨GEN_URI, "spiffe://c.org/workload"⟩
      (by decide) rfl).2.1).trans (by decide),
    (getTrustBundleStore_first_uri twoDomainValidator leafTwoUris [⟨2, "a.org"⟩]
      [⟨GEN_URI, "spiffe://a.org/workload"⟩] ⟨GEN_URI, "spiffe://c.org/workload"⟩
      (by decide) rfl).2.2 (by decide) exampleEnv callerCtx initialState⟩

/-- C20: the result of `extractTrustDomain` never contains `/`; when it is
not empty the input is `spiffe://`, the result, `/` and some remainder; a
store selected by `getTrustBundleStore` is registered under a non-empty label
without `/`; and what the registry holds under a label that is empty or
contains `/` has no effect on the selection for any leaf. -/
theorem extractTrustDomain_shape :
    (∀ san : String, '/' ∉ (extractTrustDomain san).toList) ∧
    (∀ san : String, extractTrustDomain san ≠ "" →
      ∃ rest : String, san = "spiffe://" ++ extractTrustDomain san ++ "/" ++ rest) ∧
    (∀ (v : SPIFFEValidator) (leaf : X509) (st : X509_STORE),
      getTrustBundleStore v leaf = some st →
      ∃ k : String, k ≠ "" ∧ '/' ∉ k.toList ∧ v.trust_bundle_stores_ k = some st) ∧
    (∀ (v : SPIFFEValidator) (leaf : X509) (k : String) (x : Option X509_STORE),
      (k = "" ∨ '/' ∈ k.toList) →
      getTrustBundleStore
          { v with trust_bundle_stores_ := Function.update v.trust_bundle_stores_ k x } leaf =
        getTrustBundleStore v leaf) := by
  refine ⟨extractTrustDomain_slash_free, ?_, ?_, ?_⟩
  · intro san hne
    rcases extractTrustDomain_cases san with h | ⟨r, hsan, hmem, h⟩
    · exact absurd h hne
    · refine ⟨⟨r.data.drop (r.data.indexOf '/' + 1)⟩, ?_⟩
      rw [h]
      apply String.ext
      rw [hsan]
      simp only [String.data_append]
      have hsplit := split_at_indexOf '/' r.data hmem
      rw [List.append_assoc, List.append_assoc]
      exact congrArg (fun l => ['s', 'p', 'i', 'f', 'f', 'e', ':', '/', '/'] ++ l) hsplit
  · intro v leaf st hst
    cases hsan : leaf.subject_alt_name with
    | none => simp [getTrustBundleStore, hsan] at hst
    | some names =>
      rw [getTrustBundleStore_of_san v leaf names hsan] at hst
      by_cases he : firstUriTrustDomain names = ""
      · simp [he] at hst
      · rw [if_neg he] at hst
        exact ⟨firstUriTrustDomain names, he, firstUriTrustDomain_slash_free names, hst⟩
  · intro v leaf k x hk
    cases hsan : leaf.subject_alt_name with
    | none => simp [getTrustBundleStore, hsan]
    | some names =>
      rw [getTrustBundleStore_of_san v leaf names hsan, getTrustBundleStore_of_san _ leaf names hsan]
      by_cases he : firstUriTrustDomain names = ""
      · simp [he]
      · rw [if_neg he, if_neg he]
        have hne : firstUriTrustDomain names ≠ k := by
          rintro rfl
          rcases hk with hk | hk
          · exact he hk
          · exact firstUriTrustDomain_slash_free names hk
        simp [Function.update_noteq hne]

/-- C20, at concrete inputs: `spiffe://a.org/workload` yields a non-empty
label and is rebuilt from it, and a store registered under the label `a/b` is
not seen by the selection for the leaf of `a.org`. -/
theorem extractTrustDomain_shape_witness :
    extractTrustDomain "spiffe://a.org/workload" ≠ "" ∧
      (∃ rest : String, "spiffe://a.org/workload" =
        "spiffe://" ++ extractTrustDomain "spiffe://a.org/workload" ++ "/" ++ rest) ∧
      getTrustBundleStore
          { twoDomainValidator with
            trust_bundle_stores_ :=
              Function.update twoDomainValidator.trust_bundle_stores_ "a/b" (some storeB) } leafA =
        getTrustBundleStore twoDomainValidator leafA :=
  ⟨by decide,
    extractTrustDomain_shape.2.1 "spiffe://a.org/workload" (by decide),
    extractTrustDomain_shape.2.2.2 twoDomainValidator leafA "a/b" (some storeB)
      (Or.inr (by decide))⟩

/-- What the loop of `daysUntilFirstCertExpires` computes: 0 when `ca_certs_`
is empty; otherwise the least of the days-until-expiration values of the
anchors as the function reads them into `size_t`: some anchor has that value
and no anchor has a smaller one; when the helper's values lie between 0 and
`SIZE_MAX` the same holds for the helper's values themselves. -/
theorem daysUntilFirstCertExpires_min (g : X509 → Int) (v : SPIFFEValidator) :
    (v.ca_certs_ = [] → daysUntilFirstCertExpires g v = 0) ∧
    (v.ca_certs_ ≠ [] →
      (∃ c ∈ v.ca_certs_, daysUntilFirstCertExpires g v = to_size_t (g c)) ∧
        ∀ c ∈ v.ca_certs_, daysUntilFirstCertExpires g v ≤ to_size_t (g c)) ∧
    (v.ca_certs_ ≠ [] → (∀ c ∈ v.ca_certs_, 0 ≤ g c ∧ g c ≤ SIZE_MAX) →
      (∃ c ∈ v.ca_certs_, (daysUntilFirstCertExpires g v : Int) = g c) ∧
        ∀ c ∈ v.ca_certs_, (daysUntilFirstCertExpires g v : Int) ≤ g c) := by
  refine ⟨?_, daysUntilFirstCertExpires_spec g v, ?_⟩
  · intro h
    simp [daysUntilFirstCertExpires, h]
  · intro hne hrange
    obtain ⟨⟨c, hc, heq⟩, hle⟩ := daysUntilFirstCertExpires_spec g v hne
    constructor
    · refine ⟨c, hc, ?_⟩
      rw [heq]
      exact to_size_t_of_range (g c) (hrange c hc).1 (hrange c hc).2
    · intro d hd
      have h1 := hle d hd
      have h2 := to_size_t_of_range (g d) (hrange d hd).1 (hrange d hd).2
      omega

/-- The loop of `daysUntilFirstCertExpires` at the input of the specification:
anchors expiring in 10 and 30 days yield 10 in either order, and a validator
without anchors yields 0. -/
theorem daysUntilFirstCertExpires_min_witness :
    daysUntilFirstCertExpires exampleDays twoDomainValidator = 10 ∧
      daysUntilFirstCertExpires exampleDays twoDomainValidatorSwapped = 10 ∧
      daysUntilFirstCertExpires exampleDays
        { trust_bundle_stores_ := fun _ => none, ca_certs_ := [], ca_file_name_ := "" } = 0 ∧
      (∀ c ∈ twoDomainValidatorSwapped.ca_certs_,
        (daysUntilFirstCertExpires exampleDays twoDomainValidatorSwapped : Int) ≤ exampleDays c) :=
  ⟨by decide, by decide,
    (daysUntilFirstCertExpires_min exampleDays
      { trust_bundle_stores_ := fun _ => none, ca_certs_ := [], ca_file_name_ := "" }).1 rfl,
    ((daysUntilFirstCertExpires_min exampleDays twoDomainValidatorSwapped).2.2 (by decide)
      (by decide)).2⟩

/-- C13: with a non-null status sink, a call of `doVerifyCertChain` writes
exactly one status to the sink on every branch; the sink then holds that
status, which is `Validated` or `Failed`, and it is `Validated` exactly when
the precheck passed, a registered store was selected and path validation on
that store returned 1. -/
theorem doVerifyCertChain_status (env : Externals) (v : SPIFFEValidator)
    (store_ctx : X509_STORE_CTX) (leaf : X509) (s : VerifyState) (info : SslExtendedSocketInfo)
    (hs : s.ssl_extended_info = some info) :
    ∃ added status,
      (doVerifyCertChain env v store_ctx leaf s).2.calls = s.calls ++ added ∧
      statusesWritten added = [status] ∧
      (doVerifyCertChain env v store_ctx leaf s).2.ssl_extended_info =
        some { certificate_validation_status_ := status } ∧
      (status = ClientValidationStatus.Validated ∨ status = ClientValidationStatus.Failed) ∧
      (status = ClientValidationStatus.Validated ↔
        (certificatePrecheck leaf = true ∧
          ∃ st, getTrustBundleStore v leaf = some st ∧
            env.X509_verify_cert
              { store := st, cert := leaf, untrusted := store_ctx.chain,
                param := env.X509_VERIFY_PARAM_inherit X509_VERIFY_PARAM_new store_ctx.param,
                chain := [] } = 1)) := by
  cases hpre : certificatePrecheck leaf with
  | false =>
    refine ⟨[Call.setCertificateValidationStatus ClientValidationStatus.Failed],
      ClientValidationStatus.Failed, ?_, rfl, ?_, Or.inr rfl, ?_⟩
    · rw [doVerifyCertChain_of_reject env v store_ctx leaf s hpre]
      simp [hs, VerifyState.inc_fail_verify_error_, VerifyState.setCertificateValidationStatus]
    · rw [doVerifyCertChain_of_reject env v store_ctx leaf s hpre]
      simp [hs, VerifyState.inc_fail_verify_error_, VerifyState.setCertificateValidationStatus]
    · simp
  | true =>
    cases hstore : getTrustBundleStore v leaf with
    | none =>
      refine ⟨[Call.setCertificateValidationStatus ClientValidationStatus.Failed],
        ClientValidationStatus.Failed, ?_, rfl, ?_, Or.inr rfl, ?_⟩
      · rw [doVerifyCertChain_of_no_store env v store_ctx leaf s hpre hstore]
        simp [hs, VerifyState.inc_fail_verify_error_, VerifyState.setCertificateValidationStatus]
      · rw [doVerifyCertChain_of_no_store env v store_ctx leaf s hpre hstore]
        simp [hs, VerifyState.inc_fail_verify_error_, VerifyState.setCertificateValidationStatus]
      · simp
    | some st =>
      by_cases hret : env.X509_verify_cert
          { store := st, cert := leaf, untrusted := store_ctx.chain,
            param := env.X509_VERIFY_PARAM_inherit X509_VERIFY_PARAM_new store_ctx.param,
            chain := [] } = 1
      · refine ⟨[Call.X509_verify_cert
            { store := st, cert := leaf, untrusted := store_ctx.chain,
              param := env.X509_VERIFY_PARAM_inherit X509_VERIFY_PARAM_new store_ctx.param,
              chain := [] },
            Call.setCertificateValidationStatus ClientValidationStatus.Validated],
          ClientValidationStatus.Validated, ?_, rfl, ?_, Or.inl rfl, ?_⟩
        · rw [doVerifyCertChain_of_store env v store_ctx leaf s st hpre hstore]
          simp [hs, hret, VerifyState.setCertificateValidationStatus]
        · rw [doVerifyCertChain_of_store env v store_ctx leaf s st hpre hstore]
          simp [hs, hret, VerifyState.setCertificateValidationStatus]
        · simp [hret]
      · refine ⟨[Call.X509_verify_cert
            { store := st, cert := leaf, untrusted := store_ctx.chain,
              param := env.X509_VERIFY_PARAM_inherit X509_VERIFY_PARAM_new store_ctx.param,
              chain := [] },
            Call.setCertificateValidationStatus ClientValidationStatus.Failed],
          ClientValidationStatus.Failed, ?_, rfl, ?_, Or.inr rfl, ?_⟩
        · rw [doVerifyCertChain_of_store env v store_ctx leaf s st hpre hstore]
          by_cases h0 : env.X509_verify_cert
              { store := st, cert := leaf, untrusted := store_ctx.chain,
                param := env.X509_VERIFY_PARAM_inherit X509_VERIFY_PARAM_new store_ctx.param,
                chain := [] } = 0
          · simp [hs, hret, h0, VerifyState.setCertificateValidationStatus,
              VerifyState.inc_fail_verify_error_]
          · simp [hs, hret, h0, VerifyState.setCertificateValidationStatus]
        · rw [doVerifyCertChain_of_store env v store_ctx leaf s st hpre hstore]
          by_cases h0 : env.X509_verify_cert
              { store := st, cert := leaf, untrusted := store_ctx.chain,
                param := env.X509_VERIFY_PARAM_inherit X509_VERIFY_PARAM_new store_ctx.param,
                chain := [] } = 0
          · simp [hs, hret, h0, VerifyState.setCertificateValidationStatus,
              VerifyState.inc_fail_verify_error_]
          · simp [hs, hret, h0, VerifyState.setCertificateValidationStatus]
        · simp [hret]

/-- C13, at a concrete input: for the leaf of `a.org`, the validator of
`a.org` and `b.org` and a sink holding no verdict yet, one status is written. -/
theorem doVerifyCertChain_status_witness :
    initialState.ssl_extended_info =
        some { certificate_validation_status_ := ClientValidationStatus.NotValidated } ∧
      (doVerifyCertChain exampleEnv twoDomainValidator callerCtx leafA
          initialState).2.ssl_extended_info =
        some { certificate_validation_status_ := ClientValidationStatus.Validated } ∧
      (doVerifyCertChain rejectingEnv twoDomainValidator callerCtx leafA
          initialState).2.ssl_extended_info =
        some { certificate_validation_status_ := ClientValidationStatus.Failed } ∧
      ∃ added status,
        (doVerifyCertChain exampleEnv twoDomainValidator callerCtx leafA initialState).2.calls =
          initialState.calls ++ added ∧
        statusesWritten added = [status] ∧
        (doVerifyCertChain exampleEnv twoDomainValidator callerCtx leafA
            initialState).2.ssl_extended_info =
          some { certificate_validation_status_ := status } ∧
        (status = ClientValidationStatus.Validated ∨ status = ClientValidationStatus.Failed) ∧
        (status = ClientValidationStatus.Validated ↔
          (certificatePrecheck leafA = true ∧
            ∃ st, getTrustBundleStore twoDomainValidator leafA = some st ∧
              exampleEnv.X509_verify_cert
                { store := st, cert := leafA, untrusted := callerCtx.chain,
                  param := exampleEnv.X509_VERIFY_PARAM_inherit X509_VERIFY_PARAM_new
                    callerCtx.param,
                  chain := [] } = 1)) :=
  ⟨rfl, by decide, by decide,
    doVerifyCertChain_status exampleEnv twoDomainValidator callerCtx leafA initialState _ rfl⟩

/-- C17: after a successful construction every configured domain has a store
whose `X509_V_FLAG_CRL_CHECK` bit and whose `X509_V_FLAG_CRL_CHECK_ALL` bit are
each set exactly when the domain's own bundle holds an entry with a CRL, and
whose CRLs are exactly the CRLs of that bundle. -/
theorem create_crl_flags (env : Externals) (domains : List TrustDomain) (v : SPIFFEValidator)
    (h : SPIFFEValidator.create env domains = .ok v) (d : TrustDomain) (hd : d ∈ domains) :
    ∃ st, v.trust_bundle_stores_ d.name = some st ∧
      (st.param.flags &&& X509_V_FLAG_CRL_CHECK ≠ 0 ↔
        ∃ item ∈ decodedBundle env d, item.crl.isSome = true) ∧
      (st.param.flags &&& X509_V_FLAG_CRL_CHECK_ALL ≠ 0 ↔
        ∃ item ∈ decodedBundle env d, item.crl.isSome = true) ∧
      (∀ r, r ∈ st.crls ↔ ∃ item ∈ decodedBundle env d, item.crl = some r) := by
  unfold SPIFFEValidator.create at h
  obtain ⟨_, _, h3, _⟩ := loadTrustDomains_ok env domains _ v h
  obtain ⟨_, st, hst, _, hcrl, hflag⟩ := h3 d hd
  have hex : (∃ item ∈ decodedBundle env d, item.crl.isSome = true) ↔
      bundleCrls (decodedBundle env d) ≠ [] := by
    constructor
    · rintro ⟨item, hitem, hsome⟩ hnil
      obtain ⟨r, hr⟩ := Option.isSome_iff_exists.mp hsome
      have hmem : r ∈ bundleCrls (decodedBundle env d) :=
        List.mem_filterMap.mpr ⟨item, hitem, hr⟩
      rw [hnil] at hmem
      cases hmem
    · intro hne
      obtain ⟨r, hr⟩ := List.exists_mem_of_ne_nil _ hne
      obtain ⟨item, hitem, hr1⟩ := List.mem_filterMap.mp hr
      exact ⟨item, hitem, by rw [hr1]; rfl⟩
  have hzero : st.param.flags ≠ 0 ↔ bundleCrls (decodedBundle env d) ≠ [] := by
    rw [hflag]
    by_cases hc : bundleCrls (decodedBundle env d) = []
    · simp [hc]
    · simp only [hc, if_false, ne_eq, not_false_eq_true, iff_true]
      decide
  have hcases : st.param.flags = 0 ∨
      st.param.flags = X509_V_FLAG_CRL_CHECK ||| X509_V_FLAG_CRL_CHECK_ALL := by
    rw [hflag]
    by_cases hc : bundleCrls (decodedBundle env d) = []
    · exact Or.inl (if_pos hc)
    · exact Or.inr (if_neg hc)
  obtain ⟨b1, b2⟩ := and_ne_zero_of_flags st.param.flags hcases
  refine ⟨st, hst, ?_, ?_, ?_⟩
  · rw [b1, hzero, hex]
  · rw [b2, hzero, hex]
  · intro r
    rw [hcrl r]
    exact List.mem_filterMap

/-- C17, at a concrete input: with a CRL in the bundle of `a.org` only, the
store of `a.org` has both flags and the store of `b.org` has none. -/
theorem create_crl_flags_witness :
    SPIFFEValidator.create crlEnv crlConfig = .ok crlValidator ∧
      crlValidator.trust_bundle_stores_ "a.org" = some storeAWithCrl ∧
      storeAWithCrl.param.flags = X509_V_FLAG_CRL_CHECK ||| X509_V_FLAG_CRL_CHECK_ALL ∧
      crlValidator.trust_bundle_stores_ "b.org" = some storeB ∧
      storeB.param.flags = 0 ∧
      ∃ st, crlValidator.trust_bundle_stores_ "b.org" = some st ∧
        (st.param.flags &&& X509_V_FLAG_CRL_CHECK ≠ 0 ↔
          ∃ item ∈ decodedBundle crlEnv ⟨"b.org", ⟨"", "PEM b"⟩⟩, item.crl.isSome = true) ∧
        (st.param.flags &&& X509_V_FLAG_CRL_CHECK_ALL ≠ 0 ↔
          ∃ item ∈ decodedBundle crlEnv ⟨"b.org", ⟨"", "PEM b"⟩⟩, item.crl.isSome = true) ∧
        (∀ r, r ∈ st.crls ↔
          ∃ item ∈ decodedBundle crlEnv ⟨"b.org", ⟨"", "PEM b"⟩⟩, item.crl = some r) :=
  ⟨rfl, by decide, by decide, by decide, by decide,
    create_crl_flags crlEnv crlConfig crlValidator rfl ⟨"b.org", ⟨"", "PEM b"⟩⟩ (by decide)⟩

/-- C18: after a successful construction `ca_certs_` is the concatenation, in
configuration order, of the certificates of every bundle in bundle order;
every configured domain has a store whose certificates are exactly those of
its own bundle; and a certificate is in `ca_certs_` exactly when it is in the
store of some registered domain. -/
theorem create_ca_certs (env : Externals) (domains : List TrustDomain) (v : SPIFFEValidator)
    (h : SPIFFEValidator.create env domains = .ok v) :
    v.ca_certs_ = (domains.map (fun d => bundleCerts (decodedBundle env d))).flatten ∧
    (∀ d ∈ domains, ∃ st, v.trust_bundle_stores_ d.name = some st ∧
      ∀ c, c ∈ st.certs ↔ c ∈ bundleCerts (decodedBundle env d)) ∧
    (∀ c, c ∈ v.ca_certs_ ↔ ∃ k st, v.trust_bundle_stores_ k = some st ∧ c ∈ st.certs) := by
  unfold SPIFFEValidator.create at h
  obtain ⟨h1, _, h3, h4⟩ := loadTrustDomains_ok env domains _ v h
  have hca : v.ca_certs_ =
      (domains.map (fun d => bundleCerts (decodedBundle env d))).flatten := by
    rw [h1]
    rfl
  have hstores : ∀ d ∈ domains, ∃ st, v.trust_bundle_stores_ d.name = some st ∧
      ∀ c, c ∈ st.certs ↔ c ∈ bundleCerts (decodedBundle env d) := by
    intro d hd
    obtain ⟨_, st, hst, hcert, _, _⟩ := h3 d hd
    exact ⟨st, hst, hcert⟩
  refine ⟨hca, hstores, ?_⟩
  intro c
  rw [hca]
  constructor
  · intro hc
    obtain ⟨l, hl, hcl⟩ := List.mem_flatten.mp hc
    obtain ⟨d, hd, rfl⟩ := List.mem_map.mp hl
    obtain ⟨st, hst, hcert⟩ := hstores d hd
    exact ⟨d.name, st, hst, (hcert c).mpr hcl⟩
  · rintro ⟨k, st, hk, hc⟩
    rcases h4 k st hk with h0 | ⟨d, hd, rfl⟩
    · cases h0
    · obtain ⟨st1, hst1, hcert⟩ := hstores d hd
      rw [hk] at hst1
      injection hst1 with hst1
      subst hst1
      exact List.mem_flatten.mpr
        ⟨_, List.mem_map.mpr ⟨d, hd, rfl⟩, (hcert c).mp hc⟩

/-- C18, at a concrete input: for `a.org` with an anchor and a CRL and `b.org`
with an anchor, `ca_certs_` is the two anchors in configuration order. -/
theorem create_ca_certs_witness :
    SPIFFEValidator.create crlEnv crlConfig = .ok crlValidator ∧
      crlValidator.ca_certs_ = [anchorA, anchorB] ∧
      crlValidator.ca_certs_ =
        (crlConfig.map (fun d => bundleCerts (decodedBundle crlEnv d))).flatten :=
  ⟨rfl, rfl, (create_ca_certs crlEnv crlConfig crlValidator rfl).1⟩

/-- C11, evaluated on a bundle that decodes to a CRL and no certificate: the
constructor succeeds and registers for `a.org` a store without any anchor. -/
theorem create_crl_only_bundle :
    decodedBundle crlEnv ⟨"a.org", ⟨"", "PEM CRL only"⟩⟩ = [⟨none, some crlA⟩] ∧
      bundleCerts (decodedBundle crlEnv ⟨"a.org", ⟨"", "PEM CRL only"⟩⟩) = [] ∧
      SPIFFEValidator.create crlEnv [⟨"a.org", ⟨"", "PEM CRL only"⟩⟩] = .ok crlOnlyValidator ∧
      crlOnlyValidator.trust_bundle_stores_ "a.org" = some storeCrlOnly ∧
      storeCrlOnly.certs = [] := by
  refine ⟨by decide, by decide, rfl, by decide, rfl⟩

/-- C14, evaluated on two domains that each load one anchor: the descriptor
kept in `ca_file_name_` is the one of the second domain, and
`getCaCertInformation` pairs it with the anchor of the first domain. -/
theorem create_descriptor_of_second_domain :
    SPIFFEValidator.create exampleEnv
        [⟨"a.org", ⟨"", "PEM a"⟩⟩, ⟨"b.org", ⟨"", "PEM b"⟩⟩] = .ok twoDomainValidator ∧
      getCaFileName twoDomainValidator = "b.org: <inline>" ∧
      getCaFileName twoDomainValidator ≠ "a.org: <inline>" ∧
      getCaCertInformation (fun cert file => (cert, file)) twoDomainValidator =
        some (anchorA, "b.org: <inline>") := by
  refine ⟨rfl, by decide, by decide, by decide⟩

/-- C15, evaluated on a path validation that ends with the code -1 for the
registered leaf of `a.org`: the code -1 is returned, the sink holds `Failed`
and the counter `fail_verify_error_` is unchanged. -/
theorem doVerifyCertChain_error_code_not_counted :
    certificatePrecheck leafA = true ∧
      getTrustBundleStore twoDomainValidator leafA = some storeA ∧
      (doVerifyCertChain erroringEnv twoDomainValidator callerCtx leafA initialState).1 = -1 ∧
      (doVerifyCertChain erroringEnv twoDomainValidator callerCtx leafA
          initialState).2.ssl_extended_info =
        some { certificate_validation_status_ := ClientValidationStatus.Failed } ∧
      (doVerifyCertChain erroringEnv twoDomainValidator callerCtx leafA
          initialState).2.stats_.fail_verify_error_ = initialState.stats_.fail_verify_error_ := by
  refine ⟨by decide, by decide, by decide, by decide, by decide⟩

/-- C19, as the code behaves: a rejection by the precheck and a path
validation that returns 0 both add one to the same counter
`fail_verify_error_`, so the statistics after the two calls are equal. -/
theorem doVerifyCertChain_same_counter (env : Externals) (v : SPIFFEValidator)
    (store_ctx : X509_STORE_CTX) (leaf1 leaf2 : X509) (s : VerifyState) (st : X509_STORE)
    (h1 : certificatePrecheck leaf1 = false)
    (h2 : certificatePrecheck leaf2 = true)
    (hst : getTrustBundleStore v leaf2 = some st)
    (hret : env.X509_verify_cert
      { store := st, cert := leaf2, untrusted := store_ctx.chain,
        param := env.X509_VERIFY_PARAM_inherit X509_VERIFY_PARAM_new store_ctx.param,
        chain := [] } = 0) :
    (doVerifyCertChain env v store_ctx leaf1 s).2.stats_ =
        { fail_verify_error_ := s.stats_.fail_verify_error_ + 1 } ∧
      (doVerifyCertChain env v store_ctx leaf2 s).2.stats_ =
        { fail_verify_error_ := s.stats_.fail_verify_error_ + 1 } ∧
      (doVerifyCertChain env v store_ctx leaf1 s).2.stats_ =
        (doVerifyCertChain env v store_ctx leaf2 s).2.stats_ := by
  have e1 : (doVerifyCertChain env v store_ctx leaf1 s).2.stats_ =
      { fail_verify_error_ := s.stats_.fail_verify_error_ + 1 } := by
    rw [doVerifyCertChain_of_reject env v store_ctx leaf1 s h1]
    cases hs : s.ssl_extended_info <;>
      simp [VerifyState.inc_fail_verify_error_, VerifyState.setCertificateValidationStatus]
  have e2 : (doVerifyCertChain env v store_ctx leaf2 s).2.stats_ =
      { fail_verify_error_ := s.stats_.fail_verify_error_ + 1 } := by
    rw [doVerifyCertChain_of_store env v store_ctx leaf2 s st h2 hst]
    cases hs : s.ssl_extended_info <;>
      simp [hret, VerifyState.inc_fail_verify_error_, VerifyState.setCertificateValidationStatus]
  exact ⟨e1, e2, e1.trans e2.symm⟩

/-- C19, at a concrete input: the rejected CA certificate and the leaf of
`a.org` failing path validation leave the same statistics. -/
theorem doVerifyCertChain_same_counter_witness :
    certificatePrecheck leafWithCaFlag = false ∧ certificatePrecheck leafA = true ∧
      (doVerifyCertChain rejectingEnv twoDomainValidator callerCtx leafWithCaFlag
          initialState).2.stats_ =
        (doVerifyCertChain rejectingEnv twoDomainValidator callerCtx leafA
          initialState).2.stats_ :=
  ⟨by decide, by decide,
    (doVerifyCertChain_same_counter rejectingEnv twoDomainValidator callerCtx leafWithCaFlag
      leafA initialState storeA (by decide) (by decide) (by decide) (by decide)).2.2⟩

/-- C19 as stated fails: one call rejected by the precheck and one call whose
path validation ran and returned 0 both move the single counter
`fail_verify_error_` from 0 to 1; the statistics do not tell them apart. -/
theorem doVerifyCertChain_same_counter_counterexample :
    certificatePrecheck leafWithCaFlag = false ∧
      (doVerifyCertChain rejectingEnv twoDomainValidator callerCtx leafWithCaFlag
          initialState).2.calls =
        [Call.setCertificateValidationStatus ClientValidationStatus.Failed] ∧
      (doVerifyCertChain rejectingEnv twoDomainValidator callerCtx leafWithCaFlag
          initialState).2.stats_ = { fail_verify_error_ := 1 } ∧
      certificatePrecheck leafA = true ∧
      statusesWritten
          (doVerifyCertChain rejectingEnv twoDomainValidator callerCtx leafA
            initialState).2.calls = [ClientValidationStatus.Failed] ∧
      (doVerifyCertChain rejectingEnv twoDomainValidator callerCtx leafA
          initialState).2.calls.length = 2 ∧
      (doVerifyCertChain rejectingEnv twoDomainValidator callerCtx leafA
          initialState).2.stats_ = { fail_verify_error_ := 1 } := by
  refine ⟨by decide, by decide, by decide, by decide, by decide, by decide, by decide⟩

/-- C10, evaluated on a bundle that decodes to zero certificates and zero
CRLs, namely one entry holding a private key only: the constructor does not
throw; alone or after a domain that loaded, the domain `k.org` is registered
with a store that has no anchor and no CRL. -/
theorem create_key_only_bundle :
    decodedBundle keyOnlyEnv ⟨"k.org", ⟨"", "PEM key only"⟩⟩ = [⟨none, none⟩] ∧
      bundleCerts (decodedBundle keyOnlyEnv ⟨"k.org", ⟨"", "PEM key only"⟩⟩) = [] ∧
      bundleCrls (decodedBundle keyOnlyEnv ⟨"k.org", ⟨"", "PEM key only"⟩⟩) = [] ∧
      SPIFFEValidator.create keyOnlyEnv [⟨"k.org", ⟨"", "PEM key only"⟩⟩] =
        .ok keyOnlyValidator ∧
      keyOnlyValidator.trust_bundle_stores_ "k.org" = some X509_STORE_new ∧
      SPIFFEValidator.create keyOnlyEnv
          [⟨"a.org", ⟨"", "PEM a"⟩⟩, ⟨"k.org", ⟨"", "PEM key only"⟩⟩] =
        .ok anchorThenKeyOnlyValidator ∧
      anchorThenKeyOnlyValidator.trust_bundle_stores_ "k.org" = some X509_STORE_new ∧
      X509_STORE_new.certs = [] ∧ X509_STORE_new.crls = [] := by
  refine ⟨by decide, by decide, by decide, rfl, by decide, rfl, by decide, rfl, rfl⟩

/-- C12, evaluated on an expired anchor: with the anchor of `a.org` expired
five days ago and the anchor of `b.org` expiring in 30 days the result is 30,
in either order, although the least value is -5; with the expired anchor
alone the result is 2^64 - 5. -/
theorem daysUntilFirstCertExpires_expired_anchor :
    expiredDays anchorA = -5 ∧ expiredDays anchorB = 30 ∧
      twoDomainValidator.ca_certs_ = [anchorA, anchorB] ∧
      daysUntilFirstCertExpires expiredDays twoDomainValidator = 30 ∧
      twoDomainValidatorSwapped.ca_certs_ = [anchorB, anchorA] ∧
      daysUntilFirstCertExpires expiredDays twoDomainValidatorSwapped = 30 ∧
      ¬ ((daysUntilFirstCertExpires expiredDays twoDomainValidator : Int) ≤
        expiredDays anchorA) ∧
      emptyLabelValidator.ca_certs_ = [anchorA] ∧
      daysUntilFirstCertExpires expiredDays emptyLabelValidator = 2 ^ 64 - 5 := by
  refine ⟨by decide, by decide, rfl, by decide, rfl, by decide, by decide, rfl, by decide⟩

end Envoy.Extensions.TransportSockets.Tls
